import Mathlib

/-!
# ainez — the 6502 interpreter core (`NesCpu`)

A shallow embedding of `include/Core/NesCpu.hpp` and `src/core/Core/NesCpu.cpp`.

* Machine integers are natural numbers; every C++ conversion to `uint8_t` / `uint16_t`
  is an explicit `% 256` / `% 65536` (`u8`, `u16`), conversions of possibly negative
  `int` values go through `Int` (`u8_of_int`, `u16_of_int`).
* The methods of `NesCpu` mutate `*this` and may throw; they are embedded in the monad
  `M`, whose results keep the machine state also when an exception leaves the method.
* `memory` is `std::array<uint8_t, 0xFFFF>`; an index outside the array has no meaning
  in C++, the embedding reports it as `Fault.undefined_behavior`.
* The diagnostic text that `run_with_callback` writes to `std::cout` is not modelled.
-/

/-! ## Data model -/

/-- Addressing modes of `enum class AddressingMode`. -/
inductive AddressingMode where
  | Immediate
  | ZeroPage
  | ZeroPage_X
  | ZeroPage_Y
  | Absolute
  | Absolute_X
  | Absolute_Y
  | Indirect_X
  | Indirect_Y
  | NoneAddressing
  deriving DecidableEq, Repr

/-- Flag `CpuFlags::CARRY`, bit 0. -/
def CARRY : Nat := 0b00000001
/-- Flag `CpuFlags::ZERO`, bit 1. -/
def ZERO : Nat := 0b00000010
/-- Flag `CpuFlags::INTERRUPT_DISABLE`, bit 2. -/
def INTERRUPT_DISABLE : Nat := 0b00000100
/-- Flag `CpuFlags::DECIMAL_MODE`, bit 3. -/
def DECIMAL_MODE : Nat := 0b00001000
/-- Flag `CpuFlags::BREAK`, bit 4. -/
def BREAK : Nat := 0b00010000
/-- Flag `CpuFlags::BREAK2`, bit 5. -/
def BREAK2 : Nat := 0b00100000
/-- Flag `CpuFlags::OVERFLOW`, bit 6. -/
def OVERFLOW : Nat := 0b01000000
/-- Flag `CpuFlags::NEGATIV`, bit 7. -/
def NEGATIV : Nat := 0b10000000

/-- Conversion to `uint8_t` of a non-negative value. -/
def u8 (n : Nat) : Nat := n % 256

/-- Conversion to `uint16_t` of a non-negative value. -/
def u16 (n : Nat) : Nat := n % 65536

/-- Conversion to `uint8_t` of an `int` that may be negative. -/
def u8_of_int (i : Int) : Nat := (i % 256).toNat

/-- Conversion to `uint16_t` of an `int` that may be negative. -/
def u16_of_int (i : Int) : Nat := (i % 65536).toNat

/-- Conversion `static_cast<int8_t>` of a byte: the two's-complement reading. -/
def i8 (n : Nat) : Int := if n % 256 < 128 then ((n % 256 : Nat) : Int) else ((n % 256 : Nat) : Int) - 256

/-- Conversion to `int16_t` of an `int`. -/
def i16 (i : Int) : Int := if i % 65536 < 32768 then i % 65536 else i % 65536 - 65536

/-- The operator `~` on `CpuFlags`: complement within the 8-bit underlying type. -/
def cpuflags_not (a : Nat) : Nat := a ^^^ 0xFF

/-- The function `cpuflags_from_bits`: keeps each of the eight flag bits that is set. -/
def cpuflags_from_bits (bits : Nat) : Nat :=
  let flags := 0
  let flags := if bits &&& CARRY ≠ 0 then flags ||| CARRY else flags
  let flags := if bits &&& ZERO ≠ 0 then flags ||| ZERO else flags
  let flags := if bits &&& INTERRUPT_DISABLE ≠ 0 then flags ||| INTERRUPT_DISABLE else flags
  let flags := if bits &&& DECIMAL_MODE ≠ 0 then flags ||| DECIMAL_MODE else flags
  let flags := if bits &&& BREAK ≠ 0 then flags ||| BREAK else flags
  let flags := if bits &&& BREAK2 ≠ 0 then flags ||| BREAK2 else flags
  let flags := if bits &&& OVERFLOW ≠ 0 then flags ||| OVERFLOW else flags
  let flags := if bits &&& NEGATIV ≠ 0 then flags ||| NEGATIV else flags
  flags

/-- Base address of the stack page, `const uint16_t STACK`. -/
def STACK : Nat := 0x0100
/-- Constant `STACK_RESET` of the header (declared, used by no method). -/
def STACK_RESET : Nat := 0xfd

/-- Number of elements of `std::array<uint8_t, 0xFFFF> memory`. -/
def MEMORY_SIZE : Nat := 0xFFFF

/-- Descriptor `struct OpCode`. -/
structure OpCode where
  code : Nat
  mnemonic : String
  len : Nat
  cycles : Nat
  mode : AddressingMode
  deriving DecidableEq, Repr

/-- Function `createOpCode` of `OpCodes.cpp`. -/
def createOpCode (code : Nat) (mnemonic : String) (len : Nat) (cycles : Nat)
    (mode : AddressingMode) : OpCode :=
  { code := code, mnemonic := mnemonic, len := len, cycles := cycles, mode := mode }

/-- The table `CPU_OPS_CODES`, in source order. -/
def CPU_OPS_CODES : List OpCode := [
  createOpCode 0x00 "BRK" 1 7 .NoneAddressing,
  createOpCode 0xea "NOP" 1 2 .NoneAddressing,
  createOpCode 0x69 "ADC" 2 2 .Immediate,
  createOpCode 0x65 "ADC" 2 3 .ZeroPage,
  createOpCode 0x75 "ADC" 2 4 .ZeroPage_X,
  createOpCode 0x6d "ADC" 3 4 .Absolute,
  createOpCode 0x7d "ADC" 3 4 .Absolute_X,
  createOpCode 0x79 "ADC" 3 4 .Absolute_Y,
  createOpCode 0x61 "ADC" 2 6 .Indirect_X,
  createOpCode 0x71 "ADC" 2 5 .Indirect_Y,
  createOpCode 0xe9 "SBC" 2 2 .Immediate,
  createOpCode 0xe5 "SBC" 2 3 .ZeroPage,
  createOpCode 0xf5 "SBC" 2 4 .ZeroPage_X,
  createOpCode 0xed "SBC" 3 4 .Absolute,
  createOpCode 0xfd "SBC" 3 4 .Absolute_X,
  createOpCode 0xf9 "SBC" 3 4 .Absolute_Y,
  createOpCode 0xe1 "SBC" 2 6 .Indirect_X,
  createOpCode 0xf1 "SBC" 2 5 .Indirect_Y,
  createOpCode 0x29 "AND" 2 2 .Immediate,
  createOpCode 0x25 "AND" 2 3 .ZeroPage,
  createOpCode 0x35 "AND" 2 4 .ZeroPage_X,
  createOpCode 0x2d "AND" 3 4 .Absolute,
  createOpCode 0x3d "AND" 3 4 .Absolute_X,
  createOpCode 0x39 "AND" 3 4 .Absolute_Y,
  createOpCode 0x21 "AND" 2 6 .Indirect_X,
  createOpCode 0x31 "AND" 2 5 .Indirect_Y,
  createOpCode 0x49 "EOR" 2 2 .Immediate,
  createOpCode 0x45 "EOR" 2 3 .ZeroPage,
  createOpCode 0x55 "EOR" 2 4 .ZeroPage_X,
  createOpCode 0x4d "EOR" 3 4 .Absolute,
  createOpCode 0x5d "EOR" 3 4 .Absolute_X,
  createOpCode 0x59 "EOR" 3 4 .Absolute_Y,
  createOpCode 0x41 "EOR" 2 6 .Indirect_X,
  createOpCode 0x51 "EOR" 2 5 .Indirect_Y,
  createOpCode 0x09 "ORA" 2 2 .Immediate,
  createOpCode 0x05 "ORA" 2 3 .ZeroPage,
  createOpCode 0x15 "ORA" 2 4 .ZeroPage_X,
  createOpCode 0x0d "ORA" 3 4 .Absolute,
  createOpCode 0x1d "ORA" 3 4 .Absolute_X,
  createOpCode 0x19 "ORA" 3 4 .Absolute_Y,
  createOpCode 0x01 "ORA" 2 6 .Indirect_X,
  createOpCode 0x11 "ORA" 2 5 .Indirect_Y,
  createOpCode 0x0a "ASL" 1 2 .NoneAddressing,
  createOpCode 0x06 "ASL" 2 5 .ZeroPage,
  createOpCode 0x16 "ASL" 2 6 .ZeroPage_X,
  createOpCode 0x0e "ASL" 3 6 .Absolute,
  createOpCode 0x1e "ASL" 3 7 .Absolute_X,
  createOpCode 0x4a "LSR" 1 2 .NoneAddressing,
  createOpCode 0x46 "LSR" 2 5 .ZeroPage,
  createOpCode 0x56 "LSR" 2 6 .ZeroPage_X,
  createOpCode 0x4e "LSR" 3 6 .Absolute,
  createOpCode 0x5e "LSR" 3 7 .Absolute_X,
  createOpCode 0x2a "ROL" 1 2 .NoneAddressing,
  createOpCode 0x26 "ROL" 2 5 .ZeroPage,
  createOpCode 0x36 "ROL" 2 6 .ZeroPage_X,
  createOpCode 0x2e "ROL" 3 6 .Absolute,
  createOpCode 0x3e "ROL" 3 7 .Absolute_X,
  createOpCode 0x6a "ROR" 1 2 .NoneAddressing,
  createOpCode 0x66 "ROR" 2 5 .ZeroPage,
  createOpCode 0x76 "ROR" 2 6 .ZeroPage_X,
  createOpCode 0x6e "ROR" 3 6 .Absolute,
  createOpCode 0x7e "ROR" 3 7 .Absolute_X,
  createOpCode 0xe6 "INC" 2 5 .ZeroPage,
  createOpCode 0xf6 "INC" 2 6 .ZeroPage_X,
  createOpCode 0xee "INC" 3 6 .Absolute,
  createOpCode 0xfe "INC" 3 7 .Absolute_X,
  createOpCode 0xe8 "INX" 1 2 .NoneAddressing,
  createOpCode 0xc8 "INY" 1 2 .NoneAddressing,
  createOpCode 0xc6 "DEC" 2 5 .ZeroPage,
  createOpCode 0xd6 "DEC" 2 6 .ZeroPage_X,
  createOpCode 0xce "DEC" 3 6 .Absolute,
  createOpCode 0xde "DEC" 3 7 .Absolute_X,
  createOpCode 0xca "DEX" 1 2 .NoneAddressing,
  createOpCode 0x88 "DEY" 1 2 .NoneAddressing,
  createOpCode 0xc9 "CMP" 2 2 .Immediate,
  createOpCode 0xc5 "CMP" 2 3 .ZeroPage,
  createOpCode 0xd5 "CMP" 2 4 .ZeroPage_X,
  createOpCode 0xcd "CMP" 3 4 .Absolute,
  createOpCode 0xdd "CMP" 3 4 .Absolute_X,
  createOpCode 0xd9 "CMP" 3 4 .Absolute_Y,
  createOpCode 0xc1 "CMP" 2 6 .Indirect_X,
  createOpCode 0xd1 "CMP" 2 5 .Indirect_Y,
  createOpCode 0xc0 "CPY" 2 2 .Immediate,
  createOpCode 0xc4 "CPY" 2 3 .ZeroPage,
  createOpCode 0xcc "CPY" 3 4 .Absolute,
  createOpCode 0xe0 "CPX" 2 2 .Immediate,
  createOpCode 0xe4 "CPX" 2 3 .ZeroPage,
  createOpCode 0xec "CPX" 3 4 .Absolute,
  createOpCode 0x4c "JMP" 3 3 .NoneAddressing,
  createOpCode 0x6c "JMP" 3 5 .NoneAddressing,
  createOpCode 0x20 "JSR" 3 6 .NoneAddressing,
  createOpCode 0x60 "RTS" 1 6 .NoneAddressing,
  createOpCode 0x40 "RTI" 1 6 .NoneAddressing,
  createOpCode 0xd0 "BNE" 2 2 .NoneAddressing,
  createOpCode 0x70 "BVS" 2 2 .NoneAddressing,
  createOpCode 0x50 "BVC" 2 2 .NoneAddressing,
  createOpCode 0x30 "BMI" 2 2 .NoneAddressing,
  createOpCode 0xf0 "BEQ" 2 2 .NoneAddressing,
  createOpCode 0xb0 "BCS" 2 2 .NoneAddressing,
  createOpCode 0x90 "BCC" 2 2 .NoneAddressing,
  createOpCode 0x10 "BPL" 2 2 .NoneAddressing,
  createOpCode 0x24 "BIT" 2 3 .ZeroPage,
  createOpCode 0x2c "BIT" 3 4 .Absolute,
  createOpCode 0xa9 "LDA" 2 2 .Immediate,
  createOpCode 0xa5 "LDA" 2 3 .ZeroPage,
  createOpCode 0xb5 "LDA" 2 4 .ZeroPage_X,
  createOpCode 0xad "LDA" 3 4 .Absolute,
  createOpCode 0xbd "LDA" 3 4 .Absolute_X,
  createOpCode 0xb9 "LDA" 3 4 .Absolute_Y,
  createOpCode 0xa1 "LDA" 2 6 .Indirect_X,
  createOpCode 0xb1 "LDA" 2 5 .Indirect_Y,
  createOpCode 0xa2 "LDX" 2 2 .Immediate,
  createOpCode 0xa6 "LDX" 2 3 .ZeroPage,
  createOpCode 0xb6 "LDX" 2 4 .ZeroPage_Y,
  createOpCode 0xae "LDX" 3 4 .Absolute,
  createOpCode 0xbe "LDX" 3 4 .Absolute_Y,
  createOpCode 0xa0 "LDY" 2 2 .Immediate,
  createOpCode 0xa4 "LDY" 2 3 .ZeroPage,
  createOpCode 0xb4 "LDY" 2 4 .ZeroPage_X,
  createOpCode 0xac "LDY" 3 4 .Absolute,
  createOpCode 0xbc "LDY" 3 4 .Absolute_X,
  createOpCode 0x85 "STA" 2 3 .ZeroPage,
  createOpCode 0x95 "STA" 2 4 .ZeroPage_X,
  createOpCode 0x8d "STA" 3 4 .Absolute,
  createOpCode 0x9d "STA" 3 5 .Absolute_X,
  createOpCode 0x99 "STA" 3 5 .Absolute_Y,
  createOpCode 0x81 "STA" 2 6 .Indirect_X,
  createOpCode 0x91 "STA" 2 6 .Indirect_Y,
  createOpCode 0x86 "STX" 2 3 .ZeroPage,
  createOpCode 0x96 "STX" 2 4 .ZeroPage_Y,
  createOpCode 0x8e "STX" 3 4 .Absolute,
  createOpCode 0x84 "STY" 2 3 .ZeroPage,
  createOpCode 0x94 "STY" 2 4 .ZeroPage_X,
  createOpCode 0x8c "STY" 3 4 .Absolute,
  createOpCode 0xD8 "CLD" 1 2 .NoneAddressing,
  createOpCode 0x58 "CLI" 1 2 .NoneAddressing,
  createOpCode 0xb8 "CLV" 1 2 .NoneAddressing,
  createOpCode 0x18 "CLC" 1 2 .NoneAddressing,
  createOpCode 0x38 "SEC" 1 2 .NoneAddressing,
  createOpCode 0x78 "SEI" 1 2 .NoneAddressing,
  createOpCode 0xf8 "SED" 1 2 .NoneAddressing,
  createOpCode 0xaa "TAX" 1 2 .NoneAddressing,
  createOpCode 0xa8 "TAY" 1 2 .NoneAddressing,
  createOpCode 0xba "TSX" 1 2 .NoneAddressing,
  createOpCode 0x8a "TXA" 1 2 .NoneAddressing,
  createOpCode 0x9a "TXS" 1 2 .NoneAddressing,
  createOpCode 0x98 "TYA" 1 2 .NoneAddressing,
  createOpCode 0x48 "PHA" 1 3 .NoneAddressing,
  createOpCode 0x68 "PLA" 1 4 .NoneAddressing,
  createOpCode 0x08 "PHP" 1 3 .NoneAddressing,
  createOpCode 0x28 "PLP" 1 4 .NoneAddressing]

/-- The map `OPCODES_MAP`: built by `map[cpuop.code] = &cpuop` over the table in order, so
a later entry with the same code would replace an earlier one. -/
def OPCODES_MAP : Nat → Option OpCode :=
  CPU_OPS_CODES.foldl (fun map cpuop => fun k => if k = cpuop.code then some cpuop else map k)
    (fun _ => none)

/-- The class `NesCpu`: registers, flags, program counter, stack pointer and memory. -/
structure NesCpu where
  register_a : Nat
  register_x : Nat
  register_y : Nat
  status : Nat
  program_counter : Nat
  stack_pointer : Nat
  memory : Nat → Nat

/-- What can end a method abnormally. -/
inductive Fault where
  /-- Exception `std::out_of_range` thrown by `OPCODES_MAP.at(code)`. -/
  | out_of_range (code : Nat)
  /-- Exception `std::runtime_error` thrown by `get_operand_address`. -/
  | runtime_error (what : String)
  /-- Access to `memory` at an index outside the array: no defined behaviour in C++. -/
  | undefined_behavior (index : Nat)
  deriving DecidableEq, Repr

/-- Result of a method: a value or a fault, each with the machine state left behind. -/
inductive Result (α : Type) where
  | ok (val : α) (cpu : NesCpu)
  | fault (f : Fault) (cpu : NesCpu)

/-- The machine state a result leaves behind. -/
def Result.cpu {α : Type} : Result α → NesCpu
  | .ok _ c => c
  | .fault _ c => c

/-- Whether a result is a value (`true`) or a fault (`false`). -/
def Result.isOk {α : Type} : Result α → Bool
  | .ok _ _ => true
  | .fault _ _ => false

/-- The fault a result ended with, if it did. -/
def Result.raised {α : Type} : Result α → Option Fault
  | .ok _ _ => none
  | .fault f _ => some f

/-- The value a result returned, if it did return. -/
def Result.returned {α : Type} : Result α → Option α
  | .ok a _ => some a
  | .fault _ _ => none

/-- Methods of `NesCpu`: they read and mutate the state and may throw. -/
structure M (α : Type) where
  run : NesCpu → Result α

instance : Monad M where
  pure a := ⟨fun c => .ok a c⟩
  bind x f := ⟨fun c =>
    match x.run c with
    | .ok a c1 => (f a).run c1
    | .fault e c1 => .fault e c1⟩

/-- Read `*this`. -/
def get_cpu : M NesCpu := ⟨fun c => .ok c c⟩

/-- Assign members of `*this`. -/
def modify_cpu (f : NesCpu → NesCpu) : M Unit := ⟨fun c => .ok () (f c)⟩

/-- Leave the method with a fault. -/
def raise {α : Type} (f : Fault) : M α := ⟨fun c => .fault f c⟩

namespace NesCpu

/-! ## Construction and memory -/

/-- The constructor `NesCpu::NesCpu()`. It assigns the three registers, `status` and
`program_counter`; `stack_pointer` and `memory` are left uninitialised, so their values
are parameters here. -/
def new (stack_pointer : Nat) (memory : Nat → Nat) : NesCpu :=
  { register_a := 0
    status := cpuflags_from_bits 0b100100
    program_counter := 0
    register_x := 0
    register_y := 0
    stack_pointer := stack_pointer
    memory := memory }

/-- Method `mem_read`: `memory[addr]`. -/
def mem_read (addr : Nat) : M Nat :=
  ⟨fun c => if addr < MEMORY_SIZE then .ok (c.memory addr) c
    else .fault (.undefined_behavior addr) c⟩

/-- Method `mem_read_u16`: little-endian, the second address is `pos + 1` as `uint16_t`. -/
def mem_read_u16 (pos : Nat) : M Nat := do
  let lo ← mem_read pos
  let hi ← mem_read (u16 (pos + 1))
  pure (u16 ((hi <<< 8) ||| lo))

/-- Method `mem_write`: `memory[addr] = data`. -/
def mem_write (addr : Nat) (data : Nat) : M Unit :=
  ⟨fun c => if addr < MEMORY_SIZE
    then .ok () { c with memory := fun a => if a = addr then data else c.memory a }
    else .fault (.undefined_behavior addr) c⟩

/-- Method `mem_write_u16`: low byte at `pos`, high byte at `pos + 1`. -/
def mem_write_u16 (pos : Nat) (data : Nat) : M Unit := do
  let hi := u8 ((data >>> 8) &&& 0xff)
  let lo := u8 (data &&& 0xff)
  mem_write pos lo
  mem_write (u16 (pos + 1)) hi

/-- The library call `std::memcpy(&memory[dest], program.data(), program.size())`, byte by
byte in increasing address order. -/
def memcpy (memory : Nat → Nat) (dest : Nat) : List Nat → Nat → Nat
  | [] => memory
  | b :: bs => memcpy (fun a => if a = dest then b else memory a) (dest + 1) bs

/-- Method `load`: copy the program to `0x0600`, then write `0x0600` to the reset vector.
The source makes no size check: a copy that does not fit writes the bytes that lie inside
`memory` and passes the end of the array, where C++ gives it no defined behaviour. Nothing
stops the method there: the vector write is the next statement and runs whatever the
length. The overrun is therefore reported after it, with the array as the two statements
leave it. -/
def load (program : List Nat) : M Unit := do
  if 0x0600 + program.length ≤ MEMORY_SIZE then
    modify_cpu fun c => { c with memory := memcpy c.memory 0x0600 program }
  else
    modify_cpu fun c =>
      { c with memory := memcpy c.memory 0x0600 (program.take (MEMORY_SIZE - 0x0600)) }
  mem_write_u16 0xFFFC 0x0600
  if MEMORY_SIZE < 0x0600 + program.length then
    raise (.undefined_behavior MEMORY_SIZE)

/-- Method `reset`. -/
def reset : M Unit := do
  modify_cpu fun c => { c with register_a := 0 }
  modify_cpu fun c => { c with register_x := 0 }
  modify_cpu fun c => { c with status := cpuflags_from_bits 0b100100 }
  let pc ← mem_read_u16 0xFFFC
  modify_cpu fun c => { c with program_counter := pc }

/-! ## Flags and addressing -/

/-- Method `update_zero_and_negative_flags`. -/
def update_zero_and_negative_flags (result : Nat) : M Unit := do
  if result = 0 then
    modify_cpu fun c => { c with status := c.status ||| ZERO }
  else
    modify_cpu fun c => { c with status := c.status &&& cpuflags_not ZERO }
  if result >>> 7 = 1 then
    modify_cpu fun c => { c with status := c.status ||| NEGATIV }
  else
    modify_cpu fun c => { c with status := c.status &&& cpuflags_not NEGATIV }

/-- Method `update_negative_flags`. -/
def update_negative_flags (result : Nat) : M Unit := do
  if result >>> 7 = 1 then
    modify_cpu fun c => { c with status := c.status ||| NEGATIV }
  else
    modify_cpu fun c => { c with status := c.status &&& cpuflags_not NEGATIV }

/-- Method `set_carry_flag`. -/
def set_carry_flag : M Unit :=
  modify_cpu fun c => { c with status := c.status ||| CARRY }

/-- Method `clear_carry_flag`. -/
def clear_carry_flag : M Unit :=
  modify_cpu fun c => { c with status := c.status &&& cpuflags_not CARRY }

/-- Method `get_operand_address`: the addressing resolver. -/
def get_operand_address (mode : AddressingMode) : M Nat := do
  let c ← get_cpu
  match mode with
  | .Immediate => pure c.program_counter
  | .ZeroPage => do
    let pos ← mem_read c.program_counter
    pure (u16 pos)
  | .Absolute => mem_read_u16 c.program_counter
  | .ZeroPage_X => do
    let pos ← mem_read c.program_counter
    let addr := u16 (u16 pos + c.register_x)
    pure addr
  | .ZeroPage_Y => do
    let pos ← mem_read c.program_counter
    let addr := u16 (u16 pos + c.register_y)
    pure addr
  | .Absolute_X => do
    let base ← mem_read_u16 c.program_counter
    let addr := u16 (base + c.register_x)
    pure addr
  | .Absolute_Y => do
    let base ← mem_read_u16 c.program_counter
    let addr := u16 (base + c.register_y)
    pure addr
  | .Indirect_X => do
    let base ← mem_read c.program_counter
    let ptr := u8 (u16 base + c.register_x)
    let lo ← mem_read ptr
    let hi ← mem_read (u16 (ptr + 1))
    let deref_base := u16 ((u16 hi <<< 8) ||| u16 lo)
    pure deref_base
  | .Indirect_Y => do
    let base ← mem_read c.program_counter
    let lo ← mem_read (u16 base)
    let hi ← mem_read (u16 (u16 base + 1))
    let deref_base := u16 ((u16 hi <<< 8) ||| u16 lo)
    let deref := u16 (deref_base + c.register_y)
    pure deref
  | .NoneAddressing => raise (.runtime_error "modo no soportado, dirección nula")

/-! ## Loads, stores, transfers, logic -/

/-- Method `set_register_a`. -/
def set_register_a (value : Nat) : M Unit := do
  modify_cpu fun c => { c with register_a := value }
  let c ← get_cpu
  update_zero_and_negative_flags c.register_a

/-- Method `lda`. -/
def lda (mode : AddressingMode) : M Unit := do
  let addr ← get_operand_address mode
  let value ← mem_read addr
  set_register_a value

/-- Method `ldy`. -/
def ldy (mode : AddressingMode) : M Unit := do
  let addr ← get_operand_address mode
  let value ← mem_read addr
  modify_cpu fun c => { c with register_y := value }
  let c ← get_cpu
  update_zero_and_negative_flags c.register_y

/-- Method `ldx`. -/
def ldx (mode : AddressingMode) : M Unit := do
  let addr ← get_operand_address mode
  let value ← mem_read addr
  modify_cpu fun c => { c with register_x := value }
  let c ← get_cpu
  update_zero_and_negative_flags c.register_x

/-- Method `tax`. -/
def tax : M Unit := do
  modify_cpu fun c => { c with register_x := c.register_a }
  let c ← get_cpu
  update_zero_and_negative_flags c.register_x

/-- Method `inx`. -/
def inx : M Unit := do
  modify_cpu fun c => { c with register_x := u8 (c.register_x + 1) }
  let c ← get_cpu
  update_zero_and_negative_flags c.register_x

/-- Method `iny`. -/
def iny : M Unit := do
  modify_cpu fun c => { c with register_y := u8 (c.register_y + 1) }
  let c ← get_cpu
  update_zero_and_negative_flags c.register_y

/-- Method `sta`. -/
def sta (mode : AddressingMode) : M Unit := do
  let addr ← get_operand_address mode
  let c ← get_cpu
  mem_write addr c.register_a

/-- Method `andd`. -/
def andd (mode : AddressingMode) : M Unit := do
  let addr ← get_operand_address mode
  let data ← mem_read addr
  let c ← get_cpu
  set_register_a (u8 (data &&& c.register_a))

/-- Method `eor`. -/
def eor (mode : AddressingMode) : M Unit := do
  let addr ← get_operand_address mode
  let data ← mem_read addr
  let c ← get_cpu
  set_register_a (u8 (data ^^^ c.register_a))

/-- Method `ora`. -/
def ora (mode : AddressingMode) : M Unit := do
  let addr ← get_operand_address mode
  let data ← mem_read addr
  let c ← get_cpu
  set_register_a (u8 (data ||| c.register_a))

/-! ## Arithmetic -/

/-- Method `add_to_register_a`. -/
def add_to_register_a (data : Nat) : M Unit := do
  let c ← get_cpu
  let sum := u16 (c.register_a + data + (if c.status &&& CARRY ≠ 0 then 1 else 0))
  let carry := decide (sum > 0xFF)
  if carry then
    modify_cpu fun c => { c with status := c.status ||| CARRY }
  else
    modify_cpu fun c => { c with status := c.status &&& cpuflags_not CARRY }
  let result := u8 (sum &&& 0xFF)
  if ((data ^^^ result) &&& (result ^^^ c.register_a) &&& 0x80) ≠ 0 then
    modify_cpu fun c => { c with status := c.status ||| OVERFLOW }
  else
    modify_cpu fun c => { c with status := c.status &&& cpuflags_not OVERFLOW }
  modify_cpu fun c => { c with register_a := result }

/-- Method `sbc`. The flag tests after `set_register_a` read the register already
overwritten with the result, as the source does. -/
def sbc (mode : AddressingMode) : M Unit := do
  let addr ← get_operand_address mode
  let data ← mem_read addr
  let c ← get_cpu
  let data_signed : Int := i8 data
  let carry : Int := if c.status &&& CARRY ≠ 0 then 1 else 0
  let result_signed : Int := i16 ((c.register_a : Int) - data_signed - carry)
  let result := u8_of_int result_signed
  set_register_a result
  modify_cpu fun c => { c with status := c.status &&& cpuflags_not CARRY }
  if result_signed ≥ 0 ∧ result_signed < 128 then
    modify_cpu fun c => { c with status := c.status ||| NEGATIV }
  else
    modify_cpu fun c => { c with status := c.status &&& cpuflags_not NEGATIV }
  if result = 0 then
    modify_cpu fun c => { c with status := c.status ||| ZERO }
  else
    modify_cpu fun c => { c with status := c.status &&& cpuflags_not ZERO }
  let c ← get_cpu
  if ((c.register_a ^^^ result) &&& (c.register_a ^^^ data) &&& 0x80) ≠ 0 then
    modify_cpu fun c => { c with status := c.status ||| OVERFLOW }
  else
    modify_cpu fun c => { c with status := c.status &&& cpuflags_not OVERFLOW }

/-- Method `adc`. -/
def adc (mode : AddressingMode) : M Unit := do
  let addr ← get_operand_address mode
  let value ← mem_read addr
  add_to_register_a value

/-! ## Stack -/

/-- Method `stack_pop`: increment `stack_pointer` (8-bit), then read at `STACK + stack_pointer`. -/
def stack_pop : M Nat := do
  modify_cpu fun c => { c with stack_pointer := u8 (c.stack_pointer + 1) }
  let c ← get_cpu
  mem_read (u16 (u16 STACK + u16 c.stack_pointer))

/-- Method `stack_push`: write at `STACK + stack_pointer`, then decrement `stack_pointer`
(8-bit). -/
def stack_push (data : Nat) : M Unit := do
  let c ← get_cpu
  mem_write (u16 (u16 STACK + u16 c.stack_pointer)) data
  modify_cpu fun c => { c with stack_pointer := u8_of_int ((c.stack_pointer : Int) - 1) }

/-- Method `stack_pop_u16`: low byte first, then high byte. -/
def stack_pop_u16 : M Nat := do
  let lo := u16 (← stack_pop)
  let hi := u16 (← stack_pop)
  pure (u16 ((hi <<< 8) ||| lo))

/-- Method `stack_push_u16`: high byte first, then low byte. -/
def stack_push_u16 (data : Nat) : M Unit := do
  let hi := u8 ((data >>> 8) &&& 0xFF)
  let lo := u8 (data &&& 0xFF)
  stack_push hi
  stack_push lo

/-! ## Shifts and rotates -/

/-- Method `asl_accumulator`. -/
def asl_accumulator : M Unit := do
  let data := (← get_cpu).register_a
  if data >>> 7 = 1 then set_carry_flag else clear_carry_flag
  let data := u8 (data <<< 1)
  set_register_a data

/-- Method `asl`. -/
def asl (mode : AddressingMode) : M Nat := do
  let addr ← get_operand_address mode
  let data ← mem_read addr
  if data >>> 7 = 1 then set_carry_flag else clear_carry_flag
  let data := u8 (data <<< 1)
  mem_write addr data
  update_zero_and_negative_flags data
  pure data

/-- Method `lsr_accumulator`. -/
def lsr_accumulator : M Unit := do
  let data := (← get_cpu).register_a
  if data &&& 1 = 1 then set_carry_flag else clear_carry_flag
  let data := u8 (data >>> 1)
  set_register_a data

/-- Method `lsr`. -/
def lsr (mode : AddressingMode) : M Nat := do
  let addr ← get_operand_address mode
  let data ← mem_read addr
  if data &&& 1 = 1 then set_carry_flag else clear_carry_flag
  let data := u8 (data >>> 1)
  mem_write addr data
  update_zero_and_negative_flags data
  pure data

/-- Method `rol_accumulator`. -/
def rol_accumulator : M Unit := do
  let c ← get_cpu
  let data := c.register_a
  let old_carry := decide (c.status &&& u8 CARRY ≠ 0)
  if data >>> 7 = 1 then set_carry_flag else clear_carry_flag
  let data := u8 (data <<< 1)
  let data := if old_carry then u8 (data ||| 1) else data
  set_register_a data

/-- Method `rol`. -/
def rol (mode : AddressingMode) : M Nat := do
  let addr ← get_operand_address mode
  let data ← mem_read addr
  let old_carry := decide ((← get_cpu).status &&& u8 CARRY ≠ 0)
  if data >>> 7 = 1 then set_carry_flag else clear_carry_flag
  let data := u8 (data <<< 1)
  let data := if old_carry then u8 (data ||| 1) else data
  mem_write addr data
  update_negative_flags data
  pure data

/-- Method `ror_accumulator`. The carry test is `(data & 7) == 1`, as in the source. -/
def ror_accumulator : M Unit := do
  let c ← get_cpu
  let data := c.register_a
  let old_carry := decide (c.status &&& u8 CARRY ≠ 0)
  if data &&& 7 = 1 then set_carry_flag else clear_carry_flag
  let data := u8 (data >>> 1)
  let data := if old_carry then u8 (data ||| 0b10000000) else data
  set_register_a data

/-- Method `ror`. The carry test is `(data & 7) == 1`, as in the source. -/
def ror (mode : AddressingMode) : M Nat := do
  let addr ← get_operand_address mode
  let data ← mem_read addr
  let old_carry := decide ((← get_cpu).status &&& u8 CARRY ≠ 0)
  if data &&& 7 = 1 then set_carry_flag else clear_carry_flag
  let data := u8 (data >>> 1)
  let data := if old_carry then u8 (data ||| 0b10000000) else data
  mem_write addr data
  update_negative_flags data
  pure data

/-! ## Increments, decrements, stack transfers, tests -/

/-- Method `inc`. -/
def inc (mode : AddressingMode) : M Nat := do
  let addr ← get_operand_address mode
  let data ← mem_read addr
  let data := u8 (data + 1)
  mem_write addr data
  update_zero_and_negative_flags data
  pure data

/-- Method `dey`. -/
def dey : M Unit := do
  modify_cpu fun c => { c with register_y := u8_of_int ((c.register_y : Int) - 1) }
  let c ← get_cpu
  update_zero_and_negative_flags c.register_y

/-- Method `dex`. The source computes `register_x + 1`. -/
def dex : M Unit := do
  modify_cpu fun c => { c with register_x := u8 (c.register_x + 1) }
  let c ← get_cpu
  update_zero_and_negative_flags c.register_x

/-- Method `dec`. -/
def dec (mode : AddressingMode) : M Nat := do
  let addr ← get_operand_address mode
  let data ← mem_read addr
  let data := u8_of_int ((data : Int) - 1)
  mem_write addr data
  update_zero_and_negative_flags data
  pure data

/-- Method `pla`. -/
def pla : M Unit := do
  let data ← stack_pop
  set_register_a data

/-- Method `plp`. -/
def plp : M Unit := do
  let data ← stack_pop
  modify_cpu fun c => { c with status := data }
  modify_cpu fun c => { c with status := c.status &&& cpuflags_not BREAK }
  modify_cpu fun c => { c with status := c.status ||| BREAK2 }

/-- Method `php`. -/
def php : M Unit := do
  let flags := (← get_cpu).status
  let flags := flags ||| BREAK
  let flags := flags ||| BREAK2
  stack_push flags

/-- Method `bit`. -/
def bit (mode : AddressingMode) : M Unit := do
  let addr ← get_operand_address mode
  let data ← mem_read addr
  let andd := u8 ((← get_cpu).register_a &&& data)
  if andd = 0 then
    modify_cpu fun c => { c with status := c.status ||| ZERO }
  else
    modify_cpu fun c => { c with status := c.status &&& cpuflags_not ZERO }
  if data &&& 0b10000000 > 0 then
    modify_cpu fun c => { c with status := c.status ||| NEGATIV }
  else
    modify_cpu fun c => { c with status := c.status &&& cpuflags_not NEGATIV }
  if data &&& 0b01000000 > 0 then
    modify_cpu fun c => { c with status := c.status ||| OVERFLOW }
  else
    modify_cpu fun c => { c with status := c.status &&& cpuflags_not OVERFLOW }

/-- Method `compare`. -/
def compare (mode : AddressingMode) (compare_with : Nat) : M Unit := do
  let addr ← get_operand_address mode
  let data ← mem_read addr
  if data ≤ compare_with then
    modify_cpu fun c => { c with status := c.status ||| CARRY }
  else
    modify_cpu fun c => { c with status := c.status &&& cpuflags_not CARRY }
  update_zero_and_negative_flags (u8_of_int ((compare_with : Int) - (data : Int)))

/-- Method `branch`. -/
def branch (condition : Bool) : M Unit := do
  if condition then
    let c ← get_cpu
    let jump : Int := i8 (← mem_read c.program_counter)
    let jump_addr := u16_of_int ((c.program_counter : Int) + 1 + jump)
    modify_cpu fun c => { c with program_counter := jump_addr }

/-! ## The execution engine -/

/-- The `switch (code)` of `run_with_callback`, arm by arm in source order. The value is
`true` when the arm executes `return` (only `case 0x00`) and `false` when it leaves the
switch by `break`. Two arms have no `break` and run on into the next arm: `case 0x0a`
continues with the body of `case 0x2a`, and `case 0xc8` continues with the body of the
`dec` arm. -/
def switch_code (code : Nat) (opcode : OpCode) : M Bool :=
  if code ∈ [0xa9, 0xa5, 0xb5, 0xad, 0xbd, 0xb9, 0xa1, 0xb1] then do
    lda opcode.mode; pure false
  else if code = 0xaa then do
    tax; pure false
  else if code = 0xe8 then do
    inx; pure false
  else if code = 0x00 then
    pure true
  else if code = 0xd8 then do
    modify_cpu fun c => { c with status := c.status &&& cpuflags_not DECIMAL_MODE }; pure false
  else if code = 0x58 then do
    modify_cpu fun c => { c with status := c.status &&& cpuflags_not INTERRUPT_DISABLE }; pure false
  else if code = 0xb8 then do
    modify_cpu fun c => { c with status := c.status &&& cpuflags_not OVERFLOW }; pure false
  else if code = 0x18 then do
    clear_carry_flag; pure false
  else if code = 0x38 then do
    set_carry_flag; pure false
  else if code = 0x78 then do
    modify_cpu fun c => { c with status := c.status ||| INTERRUPT_DISABLE }; pure false
  else if code = 0xf8 then do
    modify_cpu fun c => { c with status := c.status ||| DECIMAL_MODE }; pure false
  else if code = 0x48 then do
    stack_push (← get_cpu).register_a; pure false
  else if code = 0x68 then do
    pla; pure false
  else if code = 0x08 then do
    php; pure false
  else if code = 0x28 then do
    plp; pure false
  else if code ∈ [0x69, 0x65, 0x75, 0x6d, 0x7d, 0x79, 0x61, 0x71] then do
    adc opcode.mode; pure false
  else if code ∈ [0xe9, 0xe5, 0xf5, 0xed, 0xfd, 0xf9, 0xe1, 0xf1] then do
    sbc opcode.mode; pure false
  else if code ∈ [0x29, 0x25, 0x35, 0x2d, 0x3d, 0x39, 0x21, 0x31] then do
    andd opcode.mode; pure false
  else if code ∈ [0x49, 0x45, 0x55, 0x4d, 0x5d, 0x59, 0x41, 0x51] then do
    eor opcode.mode; pure false
  else if code ∈ [0x09, 0x05, 0x15, 0x0d, 0x1d, 0x19, 0x01, 0x11] then do
    ora opcode.mode; pure false
  else if code ∈ [0x46, 0x56, 0x4e, 0x5e] then do
    let _ ← lsr opcode.mode; pure false
  else if code = 0x4a then do
    lsr_accumulator; pure false
  else if code ∈ [0x06, 0x16, 0x0e, 0x1e] then do
    let _ ← asl opcode.mode; pure false
  else if code = 0x0a then do
    asl_accumulator
    rol_accumulator; pure false
  else if code = 0x2a then do
    rol_accumulator; pure false
  else if code ∈ [0x26, 0x36, 0x2e, 0x3e] then do
    let _ ← rol opcode.mode; pure false
  else if code = 0x6a then do
    ror_accumulator; pure false
  else if code ∈ [0x66, 0x76, 0x6e, 0x7e] then do
    let _ ← ror opcode.mode; pure false
  else if code ∈ [0xe6, 0xf6, 0xee, 0xfe] then do
    let _ ← inc opcode.mode; pure false
  else if code = 0xc8 then do
    iny
    let _ ← dec opcode.mode; pure false
  else if code ∈ [0xc6, 0xd6, 0xce, 0xde] then do
    let _ ← dec opcode.mode; pure false
  else if code = 0xca then do
    dex; pure false
  else if code = 0x88 then do
    dey; pure false
  else if code ∈ [0xc9, 0xc5, 0xd5, 0xcd, 0xdd, 0xd9, 0xc1, 0xd1] then do
    compare opcode.mode (← get_cpu).register_a; pure false
  else if code ∈ [0xc0, 0xc4, 0xcc] then do
    compare opcode.mode (← get_cpu).register_y; pure false
  else if code ∈ [0xe0, 0xe4, 0xec] then do
    compare opcode.mode (← get_cpu).register_x; pure false
  else if code = 0x4c then do
    let mem_address ← mem_read_u16 (← get_cpu).program_counter
    modify_cpu fun c => { c with program_counter := mem_address }; pure false
  else if code = 0x6c then do
    let mem_address ← mem_read_u16 (← get_cpu).program_counter
    let indirect_ref ←
      if mem_address &&& 0x00FF = 0x00FF then do
        let lo ← mem_read mem_address
        let hi ← mem_read (mem_address &&& 0xFF00)
        pure (u16 ((u16 hi <<< 8) ||| lo))
      else
        mem_read_u16 mem_address
    modify_cpu fun c => { c with program_counter := indirect_ref }; pure false
  else if code = 0x20 then do
    stack_push_u16 (u16_of_int (((← get_cpu).program_counter : Int) + 2 - 1))
    let target_address ← mem_read_u16 (← get_cpu).program_counter
    modify_cpu fun c => { c with program_counter := target_address }; pure false
  else if code = 0x60 then do
    let ret ← stack_pop_u16
    modify_cpu fun c => { c with program_counter := u16 (ret + 1) }; pure false
  else if code = 0x40 then do
    let data ← stack_pop
    modify_cpu fun c => { c with status := data }
    modify_cpu fun c => { c with status := c.status &&& cpuflags_not BREAK }
    modify_cpu fun c => { c with status := c.status ||| BREAK2 }
    let ret ← stack_pop_u16
    modify_cpu fun c => { c with program_counter := ret }; pure false
  else if code = 0xd0 then do
    branch (!decide ((← get_cpu).status &&& u8 ZERO ≠ 0)); pure false
  else if code = 0x70 then do
    branch (decide ((← get_cpu).status &&& u8 OVERFLOW ≠ 0)); pure false
  else if code = 0x50 then do
    branch (!decide ((← get_cpu).status &&& u8 OVERFLOW ≠ 0)); pure false
  else if code = 0x10 then do
    branch (!decide ((← get_cpu).status &&& u8 NEGATIV ≠ 0)); pure false
  else if code = 0x30 then do
    branch (decide ((← get_cpu).status &&& u8 NEGATIV ≠ 0)); pure false
  else if code = 0xf0 then do
    branch (decide ((← get_cpu).status &&& u8 ZERO ≠ 0)); pure false
  else if code = 0xb0 then do
    branch (decide ((← get_cpu).status &&& u8 CARRY ≠ 0)); pure false
  else if code = 0x90 then do
    branch (!decide ((← get_cpu).status &&& u8 CARRY ≠ 0)); pure false
  else if code ∈ [0x24, 0x2c] then do
    bit opcode.mode; pure false
  else if code ∈ [0x85, 0x95, 0x8d, 0x9d, 0x99, 0x81, 0x91] then do
    sta opcode.mode; pure false
  else if code ∈ [0x86, 0x96, 0x8e] then do
    let addr ← get_operand_address opcode.mode
    mem_write addr (← get_cpu).register_x; pure false
  else if code ∈ [0x84, 0x94, 0x8c] then do
    let addr ← get_operand_address opcode.mode
    mem_write addr (← get_cpu).register_y; pure false
  else if code ∈ [0xa2, 0xa6, 0xb6, 0xae, 0xbe] then do
    ldx opcode.mode; pure false
  else if code ∈ [0xa0, 0xa4, 0xb4, 0xac, 0xbc] then do
    ldy opcode.mode; pure false
  else if code = 0xea then
    pure false
  else if code = 0xa8 then do
    modify_cpu fun c => { c with register_y := c.register_a }
    update_zero_and_negative_flags (← get_cpu).register_y; pure false
  else if code = 0xba then do
    modify_cpu fun c => { c with register_x := c.stack_pointer }
    update_zero_and_negative_flags (← get_cpu).register_x; pure false
  else if code = 0x8a then do
    modify_cpu fun c => { c with register_a := c.register_x }
    update_zero_and_negative_flags (← get_cpu).register_a; pure false
  else if code = 0x9a then do
    modify_cpu fun c => { c with stack_pointer := c.register_x }; pure false
  else if code = 0x98 then do
    modify_cpu fun c => { c with register_a := c.register_y }
    update_zero_and_negative_flags (← get_cpu).register_a; pure false
  else
    pure false

/-- One iteration of the `while (true)` loop of `run_with_callback`, up to but not
including the call of the callback: fetch, decode with `opcodes.at(code)`, the switch, and
the advance of `program_counter` when the instruction left it at its post-fetch value.
The value is `true` when the iteration executed `return`. -/
def step : M Bool := do
  let code ← mem_read (← get_cpu).program_counter
  modify_cpu fun c => { c with program_counter := u16 (c.program_counter + 1) }
  let program_counter_state := (← get_cpu).program_counter
  let opcode ←
    match OPCODES_MAP code with
    | some opcode => pure opcode
    | none => raise (.out_of_range code)
  let returned ← switch_code code opcode
  if returned then
    pure true
  else do
    if program_counter_state = (← get_cpu).program_counter then
      modify_cpu fun c =>
        { c with program_counter := u16 (c.program_counter + u16_of_int ((opcode.len : Int) - 1)) }
    pure false

/-- How a run ends, with the observer's state and the machine state at that point. -/
inductive Outcome (σ : Type) where
  /-- The loop executed `return` (the halt opcode `0x00`). -/
  | returned (obs : σ) (cpu : NesCpu)
  /-- An exception or an undefined access left the loop. -/
  | thrown (f : Fault) (obs : σ) (cpu : NesCpu)
  /-- The loop is still running after the given number of iterations. -/
  | running (obs : σ) (cpu : NesCpu)

/-- Method `run_with_callback`. The callback is called inline on `*this` after every
iteration that did not return; it carries its own state `σ` and may change the machine.
The `while (true)` loop is unrolled at most `fuel` times. -/
def run_with_callback {σ : Type} (callback : σ → NesCpu → σ × NesCpu) :
    Nat → σ → NesCpu → Outcome σ
  | 0, s, c => .running s c
  | fuel + 1, s, c =>
    match step.run c with
    | .fault f c1 => .thrown f s c1
    | .ok true c1 => .returned s c1
    | .ok false c1 => run_with_callback callback fuel (callback s c1).1 (callback s c1).2

/-- Method `run`: `run_with_callback` with the callback `[](auto) {}`, which receives a
copy and does nothing. -/
def run (fuel : Nat) (c : NesCpu) : Outcome Unit :=
  run_with_callback (fun _ cpu => ((), cpu)) fuel () c

/-- Method `load_and_run`: `load`, then `program_counter` from the reset vector (the call
of `reset` is commented out in the source), then `run`. -/
def load_and_run (fuel : Nat) (program : List Nat) (c : NesCpu) : Outcome Unit :=
  let prepare : M Unit := do
    load program
    let pc ← mem_read_u16 0xFFFC
    modify_cpu fun c => { c with program_counter := pc }
  match prepare.run c with
  | .fault f c1 => .thrown f () c1
  | .ok _ c1 => run fuel c1

end NesCpu

/-! ## Predicates used in the statements -/

/-- A method never ends with the decode failure `std::out_of_range`, whatever the state it
is called in. -/
class NoDecodeFault {α : Type} (x : M α) : Prop where
  out : ∀ (c : NesCpu) (k : Nat) (c1 : NesCpu), x.run c ≠ Result.fault (Fault.out_of_range k) c1

/-- A method leaves `program_counter` as it found it, whether it returns or throws. -/
class KeepsProgramCounter {α : Type} (x : M α) : Prop where
  out : ∀ c : NesCpu, (x.run c).cpu.program_counter = c.program_counter

/-- An arm of the switch that leaves by `break`: whenever it returns, its value is `false`. -/
class LeavesByBreak (x : M Bool) : Prop where
  out : ∀ (c : NesCpu) (b : Bool) (c1 : NesCpu), x.run c = Result.ok b c1 → b = false

/-- The codes of the halt and of the control transfers: BRK, the two JMP, JSR, RTS, RTI and
the eight conditional branches. -/
def CONTROL_TRANSFER_CODES : List Nat :=
  [0x00, 0x4c, 0x6c, 0x20, 0x60, 0x40, 0xd0, 0x70, 0x50, 0x10, 0x30, 0xf0, 0xb0, 0x90]

/-- An execution from `c` whose loop iterations leave the listed states one after the other
without returning, and whose next iteration returns (the halt) leaving `cf`. -/
def retires : NesCpu → List NesCpu → NesCpu → Prop
  | c, [], cf => NesCpu.step.run c = Result.ok true cf
  | c, c1 :: rest, cf => NesCpu.step.run c = Result.ok false c1 ∧ retires c1 rest cf

/-! ## Concrete inputs used below -/

/-- A program of 63997 bytes, all zero but the last, which is one. Loaded at `0x0600` its
last byte falls on address `0xFFFC`. -/
def long_program : List Nat := List.replicate 0xF9FC 0 ++ [1]

/-- A freshly constructed machine whose uninitialised members happen to be `0xFD` and zero
bytes. -/
def fresh_cpu : NesCpu := NesCpu.new 0xFD (fun _ => 0)

/-- A machine about to execute `JMP ($0010)` at `0x0600`, where the word stored at `0x0010`
is `0x0601`, the address of the instruction's own first operand byte. -/
def jmp_to_operand_cpu : NesCpu :=
  { fresh_cpu with
    program_counter := 0x0600
    memory := fun a =>
      if a = 0x0600 then 0x6C else if a = 0x0601 then 0x10 else if a = 0x0602 then 0x00
      else if a = 0x0010 then 0x01 else if a = 0x0011 then 0x06 else 0 }

/-- A machine about to execute `JMP ($02FF)` at `0x0600`; `0x02FF` holds `0x34`, `0x0200`
holds `0x12` and `0x0300` holds `0x56`. -/
def jmp_page_end_cpu : NesCpu :=
  { fresh_cpu with
    program_counter := 0x0600
    memory := fun a =>
      if a = 0x0600 then 0x6C else if a = 0x0601 then 0xFF else if a = 0x0602 then 0x02
      else if a = 0x02FF then 0x34 else if a = 0x0200 then 0x12 else if a = 0x0300 then 0x56
      else 0 }

/-- A machine about to execute `JSR $01FD` at `0x0600` with `stack_pointer = 0xFD`; the
`RTS` byte at `0x01FD` lies in the stack slot the call writes first. -/
def jsr_into_stack_cpu : NesCpu :=
  { fresh_cpu with
    program_counter := 0x0600
    memory := fun a =>
      if a = 0x0600 then 0x20 else if a = 0x0601 then 0xFD else if a = 0x0602 then 0x01
      else if a = 0x01FD then 0x60 else 0 }

/-- A machine about to execute `JSR $0660` at `0x065F`: the target is the address of the
call's own first operand byte, which holds `0x60`. -/
def jsr_to_operand_cpu : NesCpu :=
  { fresh_cpu with
    program_counter := 0x065F
    memory := fun a =>
      if a = 0x065F then 0x20 else if a = 0x0660 then 0x60 else if a = 0x0661 then 0x06
      else 0 }

/-- A machine about to execute `JSR $0604` at `0x0600`, with `RTS` at `0x0604`. -/
def jsr_rts_cpu : NesCpu :=
  { fresh_cpu with
    program_counter := 0x0600
    memory := fun a =>
      if a = 0x0600 then 0x20 else if a = 0x0601 then 0x04 else if a = 0x0602 then 0x06
      else if a = 0x0604 then 0x60 else 0 }

/-- A machine with the given status and accumulator about to execute the two bytes
`opcode`, `operand` placed at `0x0600`; the rest of memory is zero. -/
def two_byte_cpu (status register_a opcode operand : Nat) : NesCpu :=
  { fresh_cpu with
    status := status
    register_a := register_a
    program_counter := 0x0600
    memory := fun a => if a = 0x0600 then opcode else if a = 0x0601 then operand else 0 }

/-- A machine with the given status and registers and `program_counter = 0x0600`, whose
memory holds the listed `(address, byte)` cells and zero everywhere else. -/
def cpu_with (status register_a register_x register_y : Nat) (cells : List (Nat × Nat)) :
    NesCpu :=
  { fresh_cpu with
    status := status
    register_a := register_a
    register_x := register_x
    register_y := register_y
    program_counter := 0x0600
    memory := fun a => (cells.lookup a).getD 0 }

/-! ## Evaluation lemmas for the method monad -/

@[simp] theorem M.run_pure {α : Type} (a : α) (c : NesCpu) :
    (pure a : M α).run c = Result.ok a c := rfl

@[simp] theorem M.run_bind {α β : Type} (x : M α) (f : α → M β) (c : NesCpu) :
    (x >>= f).run c =
      match x.run c with
      | .ok a c1 => (f a).run c1
      | .fault e c1 => .fault e c1 := rfl

@[simp] theorem M.run_ite {α : Type} (p : Prop) [Decidable p] (x y : M α) (c : NesCpu) :
    (if p then x else y).run c = if p then x.run c else y.run c := by
  split <;> rfl

@[simp] theorem M.run_get_cpu (c : NesCpu) : get_cpu.run c = Result.ok c c := rfl

@[simp] theorem M.run_modify_cpu (f : NesCpu → NesCpu) (c : NesCpu) :
    (modify_cpu f).run c = Result.ok () (f c) := rfl

@[simp] theorem M.run_raise {α : Type} (f : Fault) (c : NesCpu) :
    (raise f : M α).run c = Result.fault f c := rfl

open NesCpu

/-! ## Arithmetic facts about bytes and words -/

theorem and_255 (n : Nat) : n &&& 255 = n % 256 := Nat.and_pow_two_sub_one_eq_mod n 8

theorem shl8_or (hi lo : Nat) (hlo : lo < 256) : (hi <<< 8) ||| lo = 256 * hi + lo := by
  rw [Nat.shiftLeft_eq, Nat.mul_comm]
  exact (Nat.mul_add_lt_is_or (i := 8) hlo hi).symm

theorem and_0xFF00 (p : Nat) (hp : p < 65536) : p &&& 0xFF00 = p - p % 256 := by
  have h1 : (0xFF00 : Nat) = (2 ^ 8 - 1) <<< 8 := by decide
  have h2 : p - p % 256 = (p >>> 8) <<< 8 := by
    rw [Nat.shiftRight_eq_div_pow, Nat.shiftLeft_eq]; omega
  rw [h1, h2]
  apply Nat.eq_of_testBit_eq
  intro i
  simp only [Nat.testBit_and, Nat.testBit_shiftLeft, Nat.testBit_two_pow_sub_one,
    Nat.testBit_shiftRight]
  by_cases hi : 8 ≤ i
  · have e : 8 + (i - 8) = i := by omega
    simp only [hi, ge_iff_le, decide_True, Bool.true_and, e]
    by_cases hi2 : i - 8 < 8
    · simp [hi2]
    · have h16 : i ≥ 16 := by omega
      have hbit : p.testBit i = false := by
        apply Nat.testBit_lt_two_pow
        calc p < 65536 := hp
          _ = 2 ^ 16 := by norm_num
          _ ≤ 2 ^ i := Nat.pow_le_pow_right (by decide) h16
      simp [hbit]
  · simp [hi]

theorem u8_of_int_pred (n : Nat) : u8_of_int ((n : Int) - 1) = (n + 255) % 256 := by
  unfold u8_of_int
  omega

theorem testBit_7_iff (v : Nat) (hv : v < 256) : v.testBit 7 = true ↔ v >>> 7 = 1 := by
  rw [Nat.testBit_to_div_mod, Nat.shiftRight_eq_div_pow]
  simp only [decide_eq_true_eq]
  omega

theorem cpuflags_from_bits_36 : cpuflags_from_bits 0b100100 = 0b100100 := by decide

/-! ## Closed forms of the primitives -/

theorem run_mem_read (addr : Nat) (c : NesCpu) (h : addr < 0xFFFF) :
    (mem_read addr).run c = Result.ok (c.memory addr) c := by
  simp [mem_read, MEMORY_SIZE, h]

theorem run_mem_write (addr data : Nat) (c : NesCpu) (h : addr < 0xFFFF) :
    (mem_write addr data).run c =
      Result.ok () { c with memory := fun a => if a = addr then data else c.memory a } := by
  simp [mem_write, MEMORY_SIZE, h]

theorem run_update_zero_and_negative_flags (result : Nat) (c : NesCpu) :
    (update_zero_and_negative_flags result).run c =
      Result.ok ()
        { c with status :=
            if result >>> 7 = 1
            then (if result = 0 then c.status ||| ZERO else c.status &&& cpuflags_not ZERO) ||| NEGATIV
            else (if result = 0 then c.status ||| ZERO else c.status &&& cpuflags_not ZERO)
              &&& cpuflags_not NEGATIV } := by
  unfold update_zero_and_negative_flags
  by_cases h0 : result = 0 <;> by_cases h7 : result >>> 7 = 1 <;> simp [h0, h7]

theorem run_stack_push (data : Nat) (c : NesCpu) (hsp : c.stack_pointer < 256) :
    (stack_push data).run c =
      Result.ok ()
        { c with
          memory := fun a => if a = 0x100 + c.stack_pointer then data else c.memory a
          stack_pointer := (c.stack_pointer + 255) % 256 } := by
  have h1 : (256 + c.stack_pointer) % 65536 = 256 + c.stack_pointer := by omega
  have h2 : 256 + c.stack_pointer < 65535 := by omega
  simp [stack_push, STACK, u16, h1, h2, mem_write, MEMORY_SIZE, u8_of_int_pred]

theorem run_stack_pop (c : NesCpu) :
    stack_pop.run c =
      Result.ok (c.memory (0x100 + (c.stack_pointer + 1) % 256))
        { c with stack_pointer := (c.stack_pointer + 1) % 256 } := by
  have h1 : (256 + (c.stack_pointer + 1) % 256) % 65536
      = 256 + (c.stack_pointer + 1) % 256 := by omega
  have h2 : 256 + (c.stack_pointer + 1) % 256 < 65535 := by omega
  simp [stack_pop, STACK, u16, u8, h1, h2, mem_read, MEMORY_SIZE]

theorem run_stack_push_u16 (data : Nat) (c : NesCpu) (hsp : c.stack_pointer < 256) :
    (stack_push_u16 data).run c =
      Result.ok ()
        { c with
          memory := fun a =>
            if a = 0x100 + (c.stack_pointer + 255) % 256 then data % 256
            else if a = 0x100 + c.stack_pointer then data / 256 % 256
            else c.memory a
          stack_pointer := (c.stack_pointer + 254) % 256 } := by
  have h1 : (c.stack_pointer + 255) % 256 < 256 := Nat.mod_lt _ (by decide)
  have h2 : ((c.stack_pointer + 255) % 256 + 255) % 256 = (c.stack_pointer + 254) % 256 := by
    omega
  simp [stack_push_u16, run_stack_push, hsp, h1, h2, u8, and_255, Nat.shiftRight_eq_div_pow]

theorem run_stack_pop_u16 (c : NesCpu)
    (hlo : c.memory (0x100 + (c.stack_pointer + 1) % 256) < 256)
    (hhi : c.memory (0x100 + (c.stack_pointer + 2) % 256) < 256) :
    stack_pop_u16.run c =
      Result.ok
        (256 * c.memory (0x100 + (c.stack_pointer + 2) % 256)
          + c.memory (0x100 + (c.stack_pointer + 1) % 256))
        { c with stack_pointer := (c.stack_pointer + 2) % 256 } := by
  have h2 : ((c.stack_pointer + 1) % 256 + 1) % 256 = (c.stack_pointer + 2) % 256 := by omega
  have h3 : c.memory (256 + (c.stack_pointer + 1) % 256) % 65536
      = c.memory (256 + (c.stack_pointer + 1) % 256) := by
    omega
  have h4 : c.memory (256 + (c.stack_pointer + 2) % 256) % 65536
      = c.memory (256 + (c.stack_pointer + 2) % 256) := by
    omega
  simp [stack_pop_u16, run_stack_pop, h2, h3, h4, u16, shl8_or, hlo]
  omega

set_option maxRecDepth 100000 in
theorem status_bits_after_update : ∀ s < 256,
    ((s ||| ZERO) ||| NEGATIV) &&& ZERO ≠ 0 ∧ ((s ||| ZERO) ||| NEGATIV) &&& NEGATIV ≠ 0 ∧
    ((s ||| ZERO) ||| NEGATIV) &&& 0b01111101 = s &&& 0b01111101 ∧
    ((s ||| ZERO) &&& cpuflags_not NEGATIV) &&& ZERO ≠ 0 ∧
    ((s ||| ZERO) &&& cpuflags_not NEGATIV) &&& NEGATIV = 0 ∧
    ((s ||| ZERO) &&& cpuflags_not NEGATIV) &&& 0b01111101 = s &&& 0b01111101 ∧
    ((s &&& cpuflags_not ZERO) ||| NEGATIV) &&& ZERO = 0 ∧
    ((s &&& cpuflags_not ZERO) ||| NEGATIV) &&& NEGATIV ≠ 0 ∧
    ((s &&& cpuflags_not ZERO) ||| NEGATIV) &&& 0b01111101 = s &&& 0b01111101 ∧
    ((s &&& cpuflags_not ZERO) &&& cpuflags_not NEGATIV) &&& ZERO = 0 ∧
    ((s &&& cpuflags_not ZERO) &&& cpuflags_not NEGATIV) &&& NEGATIV = 0 ∧
    ((s &&& cpuflags_not ZERO) &&& cpuflags_not NEGATIV) &&& 0b01111101 = s &&& 0b01111101 := by
  decide

/-! ## Single engine steps -/

theorem opcodes_map_a9 : OPCODES_MAP 0xa9 = some (createOpCode 0xa9 "LDA" 2 2 .Immediate) := by rfl
theorem opcodes_map_a5 : OPCODES_MAP 0xa5 = some (createOpCode 0xa5 "LDA" 2 3 .ZeroPage) := by rfl
theorem opcodes_map_aa : OPCODES_MAP 0xaa = some (createOpCode 0xaa "TAX" 1 2 .NoneAddressing) := by rfl
theorem opcodes_map_e8 : OPCODES_MAP 0xe8 = some (createOpCode 0xe8 "INX" 1 2 .NoneAddressing) := by rfl
theorem opcodes_map_00 : OPCODES_MAP 0x00 = some (createOpCode 0x00 "BRK" 1 7 .NoneAddressing) := by rfl
theorem opcodes_map_6c : OPCODES_MAP 0x6c = some (createOpCode 0x6c "JMP" 3 5 .NoneAddressing) := by rfl
theorem opcodes_map_20 : OPCODES_MAP 0x20 = some (createOpCode 0x20 "JSR" 3 6 .NoneAddressing) := by rfl
theorem opcodes_map_60 : OPCODES_MAP 0x60 = some (createOpCode 0x60 "RTS" 1 6 .NoneAddressing) := by rfl

theorem step_brk (c : NesCpu) (hpc : c.program_counter < 0xFFFF)
    (hop : c.memory c.program_counter = 0x00) :
    step.run c = Result.ok true { c with program_counter := c.program_counter + 1 } := by
  have h1 : (c.program_counter + 1) % 65536 = c.program_counter + 1 := by omega
  simp [step, run_mem_read, hpc, hop, opcodes_map_00, switch_code, u16, h1]

theorem step_lda_immediate (c : NesCpu) (hpc : c.program_counter + 1 < 0xFFFF)
    (hop : c.memory c.program_counter = 0xa9) :
    step.run c = Result.ok false
      { c with
        register_a := c.memory (c.program_counter + 1)
        status :=
          if c.memory (c.program_counter + 1) >>> 7 = 1
          then (if c.memory (c.program_counter + 1) = 0 then c.status ||| ZERO
            else c.status &&& cpuflags_not ZERO) ||| NEGATIV
          else (if c.memory (c.program_counter + 1) = 0 then c.status ||| ZERO
            else c.status &&& cpuflags_not ZERO) &&& cpuflags_not NEGATIV
        program_counter := c.program_counter + 2 } := by
  have h0 : c.program_counter < 65535 := by omega
  have h1 : (c.program_counter + 1) % 65536 = c.program_counter + 1 := by omega
  have h2 : (c.program_counter + 1 + 1) % 65536 = c.program_counter + 2 := by omega
  have h3 : c.program_counter + 1 < 65535 := hpc
  simp [step, run_mem_read, h0, h3, hop, opcodes_map_a9, switch_code, u16, h1, h2, lda,
    get_operand_address, createOpCode, set_register_a, run_update_zero_and_negative_flags,
    u16_of_int]

theorem step_lda_zero_page (c : NesCpu) (hpc : c.program_counter + 1 < 0xFFFF)
    (hop : c.memory c.program_counter = 0xa5)
    (hz : c.memory (c.program_counter + 1) < 256) :
    step.run c = Result.ok false
      { c with
        register_a := c.memory (c.memory (c.program_counter + 1))
        status :=
          if c.memory (c.memory (c.program_counter + 1)) >>> 7 = 1
          then (if c.memory (c.memory (c.program_counter + 1)) = 0 then c.status ||| ZERO
            else c.status &&& cpuflags_not ZERO) ||| NEGATIV
          else (if c.memory (c.memory (c.program_counter + 1)) = 0 then c.status ||| ZERO
            else c.status &&& cpuflags_not ZERO) &&& cpuflags_not NEGATIV
        program_counter := c.program_counter + 2 } := by
  have h0 : c.program_counter < 65535 := by omega
  have h1 : (c.program_counter + 1) % 65536 = c.program_counter + 1 := by omega
  have h2 : (c.program_counter + 1 + 1) % 65536 = c.program_counter + 2 := by omega
  have h3 : c.program_counter + 1 < 65535 := hpc
  have h4 : c.memory (c.program_counter + 1) % 65536 = c.memory (c.program_counter + 1) := by
    omega
  have h5 : c.memory (c.program_counter + 1) < 65535 := by omega
  simp [step, run_mem_read, h0, h3, h4, h5, hop, opcodes_map_a5, switch_code, u16, h1, h2, lda,
    get_operand_address, createOpCode, set_register_a, run_update_zero_and_negative_flags,
    u16_of_int]

theorem step_tax (c : NesCpu) (hpc : c.program_counter < 0xFFFF)
    (hop : c.memory c.program_counter = 0xaa) :
    step.run c = Result.ok false
      { c with
        register_x := c.register_a
        status :=
          if c.register_a >>> 7 = 1
          then (if c.register_a = 0 then c.status ||| ZERO
            else c.status &&& cpuflags_not ZERO) ||| NEGATIV
          else (if c.register_a = 0 then c.status ||| ZERO
            else c.status &&& cpuflags_not ZERO) &&& cpuflags_not NEGATIV
        program_counter := c.program_counter + 1 } := by
  have h1 : (c.program_counter + 1) % 65536 = c.program_counter + 1 := by omega
  simp [step, run_mem_read, hpc, hop, opcodes_map_aa, switch_code, u16, h1, tax,
    createOpCode, run_update_zero_and_negative_flags, u16_of_int]

theorem step_inx (c : NesCpu) (hpc : c.program_counter < 0xFFFF)
    (hop : c.memory c.program_counter = 0xe8) :
    step.run c = Result.ok false
      { c with
        register_x := (c.register_x + 1) % 256
        status :=
          if ((c.register_x + 1) % 256) >>> 7 = 1
          then (if (c.register_x + 1) % 256 = 0 then c.status ||| ZERO
            else c.status &&& cpuflags_not ZERO) ||| NEGATIV
          else (if (c.register_x + 1) % 256 = 0 then c.status ||| ZERO
            else c.status &&& cpuflags_not ZERO) &&& cpuflags_not NEGATIV
        program_counter := c.program_counter + 1 } := by
  have h1 : (c.program_counter + 1) % 65536 = c.program_counter + 1 := by omega
  simp [step, run_mem_read, hpc, hop, opcodes_map_e8, switch_code, u16, u8, h1, inx,
    createOpCode, run_update_zero_and_negative_flags, u16_of_int]

/-! ## Loading and running -/

theorem memcpy_apply (bs : List Nat) (memory : Nat → Nat) (dest a : Nat) :
    memcpy memory dest bs a =
      if h : dest ≤ a ∧ a - dest < bs.length then bs[a - dest] else memory a := by
  induction bs generalizing memory dest with
  | nil => simp [memcpy]
  | cons b bs ih =>
    rw [memcpy, ih]
    by_cases h1 : a = dest
    · subst h1
      simp
    · by_cases h2 : dest ≤ a
      · have h3 : dest + 1 ≤ a := by omega
        have h4 : a - dest = (a - (dest + 1)) + 1 := by omega
        by_cases h5 : a - (dest + 1) < bs.length
        · have h6 : a - dest < (b :: bs).length := by simp; omega
          simp only [h3, h5, h2, h6, and_self, dite_true]
          simp [h4]
        · have h6 : ¬ (dest ≤ a ∧ a - dest < (b :: bs).length) := by simp; omega
          rw [dif_neg h6]
          simp [h5, h1]
      · have h3 : ¬ dest + 1 ≤ a := by omega
        simp [h2, h3, h1]

theorem run_load (program : List Nat) (c : NesCpu) (hlen : 0x0600 + program.length ≤ 0xFFFF) :
    (load program).run c = Result.ok ()
      { c with memory := fun a =>
          if a = 0xFFFD then 0x06 else if a = 0xFFFC then 0x00
          else memcpy c.memory 0x0600 program a } := by
  have e1 : u8 ((0x0600 >>> 8) &&& 0xff) = 6 := by decide
  have e2 : u8 (0x0600 &&& 0xff) = 0 := by decide
  have hfit : ¬ (0xFFFF < 0x0600 + program.length) := by omega
  simp only [load, MEMORY_SIZE, hlen, hfit, if_true, if_false, M.run_bind, M.run_modify_cpu,
    mem_write_u16, e1, e2]
  simp [run_mem_write, u16]

theorem load_and_run_eq (fuel : Nat) (program : List Nat) (c : NesCpu)
    (hlen : 0x0600 + program.length ≤ 0xFFFF) :
    load_and_run fuel program c =
      run fuel
        { c with
          memory := fun a =>
            if a = 0xFFFD then 0x06 else if a = 0xFFFC then 0x00
            else memcpy c.memory 0x0600 program a
          program_counter := 0x0600 } := by
  simp [load_and_run, run_load, hlen, mem_read_u16, run_mem_read, u16]

theorem run_succ_of_step_false (fuel : Nat) (c c1 : NesCpu)
    (h : step.run c = Result.ok false c1) : run (fuel + 1) c = run fuel c1 := by
  simp [run, run_with_callback, h]

theorem run_succ_of_step_true (fuel : Nat) (c c1 : NesCpu)
    (h : step.run c = Result.ok true c1) : run (fuel + 1) c = Outcome.returned () c1 := by
  simp [run, run_with_callback, h]

theorem long_program_length : long_program.length = 0xF9FD := by
  unfold long_program
  rw [List.length_append, List.length_replicate, List.length_singleton]

theorem long_program_last : long_program[0xF9FC]? = some 1 := by
  unfold long_program
  rw [List.getElem?_append_right (by simp only [List.length_replicate]; exact Nat.le_refl _)]
  simp only [List.length_replicate, Nat.sub_self, List.getElem?_cons_zero]

theorem long_program_fits : 0x0600 + long_program.length ≤ 0xFFFF := by
  rw [long_program_length]; decide

theorem long_program_loaded :
    ((load long_program).run fresh_cpu).cpu.memory (0x0600 + 0xF9FC) = 0 := by
  rw [run_load _ _ long_program_fits]
  simp only [Result.cpu]
  decide

theorem step_rts (c : NesCpu) (hpc : c.program_counter < 0xFFFF)
    (hop : c.memory c.program_counter = 0x60)
    (hlo : c.memory (0x100 + (c.stack_pointer + 1) % 256) < 256)
    (hhi : c.memory (0x100 + (c.stack_pointer + 2) % 256) < 256) :
    step.run c = Result.ok false
      { c with
        stack_pointer := (c.stack_pointer + 2) % 256
        program_counter :=
          (256 * c.memory (0x100 + (c.stack_pointer + 2) % 256)
            + c.memory (0x100 + (c.stack_pointer + 1) % 256) + 1) % 65536 } := by
  have h1 : (c.program_counter + 1) % 65536 = c.program_counter + 1 := by omega
  have hpop := run_stack_pop_u16
    { c with program_counter := c.program_counter + 1 } hlo hhi
  simp only [] at hpop
  simp [step, run_mem_read, hpc, hop, opcodes_map_60, switch_code, u16, h1, createOpCode,
    u16_of_int, hpop]

theorem step_jsr (c : NesCpu) (hsp : c.stack_pointer < 256)
    (hpc : c.program_counter + 2 < 0xFFFF)
    (hop : c.memory c.program_counter = 0x20)
    (hlo : c.memory (c.program_counter + 1) < 256)
    (hhi : c.memory (c.program_counter + 2) < 256)
    (h1a : c.program_counter + 1 ≠ 0x100 + c.stack_pointer)
    (h1b : c.program_counter + 1 ≠ 0x100 + (c.stack_pointer + 255) % 256)
    (h2a : c.program_counter + 2 ≠ 0x100 + c.stack_pointer)
    (h2b : c.program_counter + 2 ≠ 0x100 + (c.stack_pointer + 255) % 256)
    (hne : 256 * c.memory (c.program_counter + 2) + c.memory (c.program_counter + 1)
      ≠ c.program_counter + 1) :
    step.run c = Result.ok false
      { c with
        memory := fun a =>
          if a = 0x100 + (c.stack_pointer + 255) % 256 then (c.program_counter + 2) % 256
          else if a = 0x100 + c.stack_pointer then (c.program_counter + 2) / 256 % 256
          else c.memory a
        stack_pointer := (c.stack_pointer + 254) % 256
        program_counter :=
          256 * c.memory (c.program_counter + 2) + c.memory (c.program_counter + 1) } := by
  have e0 : c.program_counter < 65535 := by omega
  have e1 : (c.program_counter + 1) % 65536 = c.program_counter + 1 := by omega
  have e2 : (c.program_counter + 1 + 1) % 65536 = c.program_counter + 2 := by omega
  have e3 : c.program_counter + 1 < 65535 := by omega
  have e4 : c.program_counter + 2 < 65535 := by omega
  have e5 : u16_of_int ((c.program_counter : Int) + 1 + 2 - 1) = c.program_counter + 2 := by
    unfold u16_of_int; omega
  have e6 : (256 * c.memory (c.program_counter + 2) + c.memory (c.program_counter + 1)) % 65536
      = 256 * c.memory (c.program_counter + 2) + c.memory (c.program_counter + 1) := by omega
  simp [step, run_mem_read, e0, e1, e2, e3, e4, hop, opcodes_map_20, switch_code, u16,
    createOpCode, e5, run_stack_push_u16, hsp, mem_read_u16, h1a, h1b, h2a, h2b, shl8_or, hlo,
    e6, hne.symm]

theorem step_jmp_indirect_page_end (c : NesCpu) (hmem : ∀ a, c.memory a < 256)
    (hpc : c.program_counter + 2 < 0xFFFF)
    (hop : c.memory c.program_counter = 0x6c)
    (hff : c.memory (c.program_counter + 1) = 0xFF)
    (hp : c.memory (c.program_counter + 2) ≠ 0xFF) :
    step.run c = Result.ok false
      { c with
        program_counter :=
          if c.program_counter + 1
              = 256 * c.memory (256 * c.memory (c.program_counter + 2))
                + c.memory (256 * c.memory (c.program_counter + 2) + 0xFF)
          then c.program_counter + 3
          else 256 * c.memory (256 * c.memory (c.program_counter + 2))
              + c.memory (256 * c.memory (c.program_counter + 2) + 0xFF) } := by
  have e0 : c.program_counter < 65535 := by omega
  have e1 : (c.program_counter + 1) % 65536 = c.program_counter + 1 := by omega
  have e2 : (c.program_counter + 1 + 1) % 65536 = c.program_counter + 2 := by omega
  have e2b : (c.program_counter + 1 + 2) % 65536 = c.program_counter + 3 := by omega
  have e3 : c.program_counter + 1 < 65535 := by omega
  have e4 : c.program_counter + 2 < 65535 := by omega
  have hhi := hmem (c.program_counter + 2)
  have e5 : (256 * c.memory (c.program_counter + 2) + 255) % 65536
      = 256 * c.memory (c.program_counter + 2) + 255 := by omega
  have e6 : (256 * c.memory (c.program_counter + 2) + 255) % 256 = 255 := by omega
  have e7 : 256 * c.memory (c.program_counter + 2) + 255 < 65535 := by omega
  have e8 : (256 * c.memory (c.program_counter + 2) + 255) &&& 65280
      = 256 * c.memory (c.program_counter + 2) := by
    rw [and_0xFF00 _ (by omega)]; omega
  have e9 : 256 * c.memory (c.program_counter + 2) < 65535 := by omega
  have h10 := hmem (256 * c.memory (c.program_counter + 2))
  have h11 := hmem (256 * c.memory (c.program_counter + 2) + 255)
  have e12 : c.memory (256 * c.memory (c.program_counter + 2)) % 65536
      = c.memory (256 * c.memory (c.program_counter + 2)) := by omega
  have e13 : (256 * c.memory (256 * c.memory (c.program_counter + 2))
      + c.memory (256 * c.memory (c.program_counter + 2) + 255)) % 65536
      = 256 * c.memory (256 * c.memory (c.program_counter + 2))
      + c.memory (256 * c.memory (c.program_counter + 2) + 255) := by omega
  simp [step, run_mem_read, e0, e1, e2, e3, e4, hop, hff, opcodes_map_6c, switch_code, u16,
    createOpCode, mem_read_u16, shl8_or, e5, e6, e7, e8, e9, and_255, h11, e12, e13, u16_of_int,
    e2b]
  split
  · simp; omega
  · simp

theorem step_jmp_indirect_inside_page (c : NesCpu) (hmem : ∀ a, c.memory a < 256)
    (hpc : c.program_counter + 2 < 0xFFFF)
    (hop : c.memory c.program_counter = 0x6c)
    (hff : c.memory (c.program_counter + 1) ≠ 0xFF)
    (hin : 256 * c.memory (c.program_counter + 2) + c.memory (c.program_counter + 1) + 1
      < 0xFFFF) :
    step.run c = Result.ok false
      { c with
        program_counter :=
          if c.program_counter + 1
              = 256 * c.memory (256 * c.memory (c.program_counter + 2)
                    + c.memory (c.program_counter + 1) + 1)
                + c.memory (256 * c.memory (c.program_counter + 2)
                    + c.memory (c.program_counter + 1))
          then c.program_counter + 3
          else 256 * c.memory (256 * c.memory (c.program_counter + 2)
                    + c.memory (c.program_counter + 1) + 1)
                + c.memory (256 * c.memory (c.program_counter + 2)
                    + c.memory (c.program_counter + 1)) } := by
  have e0 : c.program_counter < 65535 := by omega
  have e1 : (c.program_counter + 1) % 65536 = c.program_counter + 1 := by omega
  have e2 : (c.program_counter + 1 + 1) % 65536 = c.program_counter + 2 := by omega
  have e2b : (c.program_counter + 1 + 2) % 65536 = c.program_counter + 3 := by omega
  have e3 : c.program_counter + 1 < 65535 := by omega
  have e4 : c.program_counter + 2 < 65535 := by omega
  have hhi := hmem (c.program_counter + 2)
  have hlo := hmem (c.program_counter + 1)
  generalize hP : 256 * c.memory (c.program_counter + 2) + c.memory (c.program_counter + 1) = p
  have e5 : p % 65536 = p := by omega
  have e6 : ¬ p % 256 = 255 := by omega
  have e7 : p < 65535 := by omega
  have e8 : (p + 1) % 65536 = p + 1 := by omega
  have e9 : p + 1 < 65535 := by omega
  have h10 := hmem p
  have h11 := hmem (p + 1)
  have e13 : (256 * c.memory (p + 1) + c.memory p) % 65536
      = 256 * c.memory (p + 1) + c.memory p := by omega
  simp [step, run_mem_read, e0, e1, e2, e3, e4, hop, opcodes_map_6c, switch_code, u16,
    createOpCode, mem_read_u16, shl8_or, hlo, hP, e5, e6, e7, e8, e9, and_255, h10, e13,
    u16_of_int, e2b]
  split
  · simp; omega
  · simp

/-! ## Faults, observers, addition and branches -/

instance NoDecodeFault.pure {α : Type} (a : α) : NoDecodeFault (pure a : M α) :=
  ⟨fun _ _ _ h => by cases h⟩

instance NoDecodeFault.bind {α β : Type} (x : M α) (f : α → M β) [hx : NoDecodeFault x]
    [hf : ∀ a, NoDecodeFault (f a)] : NoDecodeFault (x >>= f) := by
  constructor
  intro c k c1 h
  rw [M.run_bind] at h
  cases hxc : x.run c with
  | ok a c2 =>
    rw [hxc] at h
    exact (hf a).out c2 k c1 h
  | fault e c2 =>
    rw [hxc] at h
    simp only [Result.fault.injEq] at h
    exact hx.out c k c2 (by rw [hxc, h.1])

instance NoDecodeFault.ite {α : Type} (p : Prop) [Decidable p] (x y : M α) [hx : NoDecodeFault x]
    [hy : NoDecodeFault y] : NoDecodeFault (if p then x else y) := by
  split
  · exact hx
  · exact hy

instance NoDecodeFault.get_cpu : NoDecodeFault get_cpu := ⟨fun _ _ _ h => by cases h⟩

instance NoDecodeFault.modify_cpu (f : NesCpu → NesCpu) : NoDecodeFault (modify_cpu f) :=
  ⟨fun _ _ _ h => by cases h⟩

instance NoDecodeFault.raise_runtime_error {α : Type} (what : String) :
    NoDecodeFault (raise (Fault.runtime_error what) : M α) :=
  ⟨fun _ _ _ h => by cases h⟩

instance NoDecodeFault.raise_undefined_behavior {α : Type} (index : Nat) :
    NoDecodeFault (raise (Fault.undefined_behavior index) : M α) :=
  ⟨fun _ _ _ h => by cases h⟩

instance NoDecodeFault.mem_read (addr : Nat) : NoDecodeFault (mem_read addr) := by
  constructor
  intro c k c1 h
  unfold NesCpu.mem_read at h
  simp only at h
  split at h <;> cases h

instance NoDecodeFault.mem_write (addr data : Nat) : NoDecodeFault (mem_write addr data) := by
  constructor
  intro c k c1 h
  unfold NesCpu.mem_write at h
  simp only at h
  split at h <;> cases h

instance NoDecodeFault.mem_read_u16 (pos : Nat) : NoDecodeFault (mem_read_u16 pos) := by
  unfold NesCpu.mem_read_u16
  try dsimp only
  infer_instance

instance NoDecodeFault.mem_write_u16 (pos data : Nat) : NoDecodeFault (mem_write_u16 pos data) := by
  unfold NesCpu.mem_write_u16
  try dsimp only
  infer_instance

instance NoDecodeFault.update_zero_and_negative_flags (result : Nat) :
    NoDecodeFault (update_zero_and_negative_flags result) := by
  unfold NesCpu.update_zero_and_negative_flags
  try dsimp only
  infer_instance

instance NoDecodeFault.update_negative_flags (result : Nat) :
    NoDecodeFault (update_negative_flags result) := by
  unfold NesCpu.update_negative_flags
  try dsimp only
  infer_instance

instance NoDecodeFault.set_carry_flag : NoDecodeFault (set_carry_flag) := by
  unfold NesCpu.set_carry_flag
  try dsimp only
  infer_instance

instance NoDecodeFault.clear_carry_flag : NoDecodeFault (clear_carry_flag) := by
  unfold NesCpu.clear_carry_flag
  try dsimp only
  infer_instance

instance NoDecodeFault.set_register_a (value : Nat) : NoDecodeFault (set_register_a value) := by
  unfold NesCpu.set_register_a
  try dsimp only
  infer_instance

instance NoDecodeFault.get_operand_address (mode : AddressingMode) :
    NoDecodeFault (get_operand_address mode) := by
  unfold NesCpu.get_operand_address
  cases mode <;> infer_instance

instance NoDecodeFault.lda (mode : AddressingMode) : NoDecodeFault (lda mode) := by
  unfold NesCpu.lda
  try dsimp only
  infer_instance

instance NoDecodeFault.ldy (mode : AddressingMode) : NoDecodeFault (ldy mode) := by
  unfold NesCpu.ldy
  try dsimp only
  infer_instance

instance NoDecodeFault.ldx (mode : AddressingMode) : NoDecodeFault (ldx mode) := by
  unfold NesCpu.ldx
  try dsimp only
  infer_instance

instance NoDecodeFault.tax : NoDecodeFault (tax) := by
  unfold NesCpu.tax
  try dsimp only
  infer_instance

instance NoDecodeFault.inx : NoDecodeFault (inx) := by
  unfold NesCpu.inx
  try dsimp only
  infer_instance

instance NoDecodeFault.iny : NoDecodeFault (iny) := by
  unfold NesCpu.iny
  try dsimp only
  infer_instance

instance NoDecodeFault.sta (mode : AddressingMode) : NoDecodeFault (sta mode) := by
  unfold NesCpu.sta
  try dsimp only
  infer_instance

instance NoDecodeFault.andd (mode : AddressingMode) : NoDecodeFault (andd mode) := by
  unfold NesCpu.andd
  try dsimp only
  infer_instance

instance NoDecodeFault.eor (mode : AddressingMode) : NoDecodeFault (eor mode) := by
  unfold NesCpu.eor
  try dsimp only
  infer_instance

instance NoDecodeFault.ora (mode : AddressingMode) : NoDecodeFault (ora mode) := by
  unfold NesCpu.ora
  try dsimp only
  infer_instance

instance NoDecodeFault.add_to_register_a (data : Nat) : NoDecodeFault (add_to_register_a data) := by
  unfold NesCpu.add_to_register_a
  try dsimp only
  infer_instance

set_option synthInstance.maxSize 20000 in
instance NoDecodeFault.sbc (mode : AddressingMode) : NoDecodeFault (sbc mode) := by
  unfold NesCpu.sbc
  try dsimp only
  infer_instance

instance NoDecodeFault.adc (mode : AddressingMode) : NoDecodeFault (adc mode) := by
  unfold NesCpu.adc
  try dsimp only
  infer_instance

instance NoDecodeFault.stack_pop : NoDecodeFault (stack_pop) := by
  unfold NesCpu.stack_pop
  try dsimp only
  infer_instance

instance NoDecodeFault.stack_push (data : Nat) : NoDecodeFault (stack_push data) := by
  unfold NesCpu.stack_push
  try dsimp only
  infer_instance

instance NoDecodeFault.stack_pop_u16 : NoDecodeFault (stack_pop_u16) := by
  unfold NesCpu.stack_pop_u16
  try dsimp only
  infer_instance

instance NoDecodeFault.stack_push_u16 (data : Nat) : NoDecodeFault (stack_push_u16 data) := by
  unfold NesCpu.stack_push_u16
  try dsimp only
  infer_instance

instance NoDecodeFault.asl_accumulator : NoDecodeFault (asl_accumulator) := by
  unfold NesCpu.asl_accumulator
  try dsimp only
  infer_instance

instance NoDecodeFault.asl (mode : AddressingMode) : NoDecodeFault (asl mode) := by
  unfold NesCpu.asl
  try dsimp only
  infer_instance

instance NoDecodeFault.lsr_accumulator : NoDecodeFault (lsr_accumulator) := by
  unfold NesCpu.lsr_accumulator
  try dsimp only
  infer_instance

instance NoDecodeFault.lsr (mode : AddressingMode) : NoDecodeFault (lsr mode) := by
  unfold NesCpu.lsr
  try dsimp only
  infer_instance

instance NoDecodeFault.rol_accumulator : NoDecodeFault (rol_accumulator) := by
  unfold NesCpu.rol_accumulator
  try dsimp only
  infer_instance

instance NoDecodeFault.rol (mode : AddressingMode) : NoDecodeFault (rol mode) := by
  unfold NesCpu.rol
  try dsimp only
  infer_instance

instance NoDecodeFault.ror_accumulator : NoDecodeFault (ror_accumulator) := by
  unfold NesCpu.ror_accumulator
  try dsimp only
  infer_instance

instance NoDecodeFault.ror (mode : AddressingMode) : NoDecodeFault (ror mode) := by
  unfold NesCpu.ror
  try dsimp only
  infer_instance

instance NoDecodeFault.inc (mode : AddressingMode) : NoDecodeFault (inc mode) := by
  unfold NesCpu.inc
  try dsimp only
  infer_instance

instance NoDecodeFault.dey : NoDecodeFault (dey) := by
  unfold NesCpu.dey
  try dsimp only
  infer_instance

instance NoDecodeFault.dex : NoDecodeFault (dex) := by
  unfold NesCpu.dex
  try dsimp only
  infer_instance

instance NoDecodeFault.dec (mode : AddressingMode) : NoDecodeFault (dec mode) := by
  unfold NesCpu.dec
  try dsimp only
  infer_instance

instance NoDecodeFault.pla : NoDecodeFault (pla) := by
  unfold NesCpu.pla
  try dsimp only
  infer_instance

instance NoDecodeFault.plp : NoDecodeFault (plp) := by
  unfold NesCpu.plp
  try dsimp only
  infer_instance

instance NoDecodeFault.php : NoDecodeFault (php) := by
  unfold NesCpu.php
  try dsimp only
  infer_instance

set_option synthInstance.maxSize 20000 in
instance NoDecodeFault.bit (mode : AddressingMode) : NoDecodeFault (bit mode) := by
  unfold NesCpu.bit
  try dsimp only
  infer_instance

instance NoDecodeFault.compare (mode : AddressingMode) (compare_with : Nat) :
    NoDecodeFault (compare mode compare_with) := by
  unfold NesCpu.compare
  try dsimp only
  infer_instance

instance NoDecodeFault.branch (condition : Bool) : NoDecodeFault (branch condition) := by
  unfold NesCpu.branch
  try dsimp only
  infer_instance

set_option synthInstance.maxSize 20000 in
instance NoDecodeFault.switch_code (code : Nat) (opcode : OpCode) :
    NoDecodeFault (switch_code code opcode) := by
  unfold NesCpu.switch_code
  try dsimp only
  infer_instance

theorem fault_of_bind {α β : Type} {x : M α} {f : α → M β} {c c1 : NesCpu} {e : Fault}
    (h : (x >>= f).run c = Result.fault e c1) :
    x.run c = Result.fault e c1 ∨
      ∃ a c2, x.run c = Result.ok a c2 ∧ (f a).run c2 = Result.fault e c1 := by
  rw [M.run_bind] at h
  cases hx : x.run c with
  | ok a c2 =>
    rw [hx] at h
    exact Or.inr ⟨a, c2, rfl, h⟩
  | fault e2 c2 =>
    rw [hx] at h
    simp only [Result.fault.injEq] at h
    obtain ⟨rfl, rfl⟩ := h
    exact Or.inl rfl

theorem opcodes_fold_none (l : List OpCode) (init : Nat → Option OpCode) (k : Nat) :
    l.foldl (fun map cpuop => fun k => if k = cpuop.code then some cpuop else map k) init k = none
      ↔ init k = none ∧ ∀ op ∈ l, op.code ≠ k := by
  induction l generalizing init with
  | nil => simp
  | cons op rest ih =>
    rw [List.foldl_cons, ih]
    by_cases hk : k = op.code
    · subst hk; simp
    · have hk2 : op.code ≠ k := fun h => hk h.symm
      simp [hk, hk2]

theorem opcodes_map_none_iff (k : Nat) :
    OPCODES_MAP k = none ↔ ∀ op ∈ CPU_OPS_CODES, op.code ≠ k := by
  unfold OPCODES_MAP
  rw [opcodes_fold_none]
  simp

theorem step_decode_failure (c : NesCpu) (hpc : c.program_counter < 0xFFFF)
    (hnone : OPCODES_MAP (c.memory c.program_counter) = none) :
    step.run c = Result.fault (Fault.out_of_range (c.memory c.program_counter))
      { c with program_counter := (c.program_counter + 1) % 65536 } := by
  simp [step, run_mem_read, hpc, hnone, u16]

theorem step_out_of_range_only_if (c c1 : NesCpu) (k : Nat)
    (h : step.run c = Result.fault (Fault.out_of_range k) c1) :
    OPCODES_MAP (c.memory c.program_counter) = none := by
  unfold step at h
  rcases fault_of_bind h with h | ⟨c0, c2, h0, h⟩
  · cases h
  cases h0
  rcases fault_of_bind h with h | ⟨code, c2, hcode, h⟩
  · exact absurd h (NoDecodeFault.out _ _ _)
  have hc : code = c.memory c.program_counter := by
    unfold NesCpu.mem_read at hcode
    simp only at hcode
    split at hcode
    · cases hcode; rfl
    · cases hcode
  subst hc
  rcases fault_of_bind h with h | ⟨u, c3, -, h⟩
  · cases h
  rcases fault_of_bind h with h | ⟨c4, c5, -, h⟩
  · cases h
  dsimp only at h
  cases hmap : OPCODES_MAP (c.memory c.program_counter) with
  | none => rfl
  | some op =>
    rw [hmap] at h
    dsimp only at h
    rcases fault_of_bind h with h | ⟨opcode, c6, -, h⟩
    · cases h
    · exact absurd h (NoDecodeFault.out _ _ _)

theorem run_with_callback_of_retires {σ : Type} (observe : σ → NesCpu → σ) :
    ∀ (trace : List NesCpu) (c cf : NesCpu) (s0 : σ) (fuel : Nat),
      retires c trace cf → trace.length < fuel →
      run_with_callback (fun s cpu => (observe s cpu, cpu)) fuel s0 c
        = Outcome.returned (trace.foldl observe s0) cf := by
  intro trace
  induction trace with
  | nil =>
    intro c cf s0 fuel h hfuel
    obtain ⟨n, rfl⟩ : ∃ n, fuel = n + 1 := ⟨fuel - 1, by simp at hfuel; omega⟩
    simp only [retires] at h
    simp [run_with_callback, h]
  | cons c1 rest ih =>
    intro c cf s0 fuel h hfuel
    obtain ⟨n, rfl⟩ : ∃ n, fuel = n + 1 := ⟨fuel - 1, by simp at hfuel; omega⟩
    simp only [retires] at h
    simp only [run_with_callback, h.1, List.foldl_cons]
    exact ih c1 cf (observe s0 c1) n h.2 (by simp at hfuel; omega)

theorem run_add_to_register_a (data : Nat) (c : NesCpu) :
    (add_to_register_a data).run c = Result.ok ()
      { c with
        register_a :=
          (c.register_a + data + (if c.status &&& CARRY ≠ 0 then 1 else 0)) % 65536 % 256
        status :=
          if (data ^^^ (c.register_a + data + (if c.status &&& CARRY ≠ 0 then 1 else 0))
                % 65536 % 256)
              &&& ((c.register_a + data + (if c.status &&& CARRY ≠ 0 then 1 else 0))
                % 65536 % 256 ^^^ c.register_a) &&& 0x80 ≠ 0
          then (if (c.register_a + data + (if c.status &&& CARRY ≠ 0 then 1 else 0)) % 65536
                > 0xFF
              then c.status ||| CARRY else c.status &&& cpuflags_not CARRY) ||| OVERFLOW
          else (if (c.register_a + data + (if c.status &&& CARRY ≠ 0 then 1 else 0)) % 65536
                > 0xFF
              then c.status ||| CARRY else c.status &&& cpuflags_not CARRY)
            &&& cpuflags_not OVERFLOW } := by
  simp only [add_to_register_a, M.run_bind, M.run_get_cpu, M.run_modify_cpu, M.run_ite, u16, u8,
    and_255, Nat.mod_mod, decide_eq_true_eq]
  split_ifs <;> simp_all

set_option maxRecDepth 100000 in
theorem status_bits_after_adc : ∀ s < 256,
    ((s ||| CARRY) ||| OVERFLOW) &&& CARRY ≠ 0 ∧ ((s ||| CARRY) ||| OVERFLOW) &&& OVERFLOW ≠ 0 ∧
    ((s ||| CARRY) &&& cpuflags_not OVERFLOW) &&& CARRY ≠ 0 ∧
    ((s ||| CARRY) &&& cpuflags_not OVERFLOW) &&& OVERFLOW = 0 ∧
    ((s &&& cpuflags_not CARRY) ||| OVERFLOW) &&& CARRY = 0 ∧
    ((s &&& cpuflags_not CARRY) ||| OVERFLOW) &&& OVERFLOW ≠ 0 ∧
    ((s &&& cpuflags_not CARRY) &&& cpuflags_not OVERFLOW) &&& CARRY = 0 ∧
    ((s &&& cpuflags_not CARRY) &&& cpuflags_not OVERFLOW) &&& OVERFLOW = 0 ∧
    ((s ||| CARRY) ||| OVERFLOW) &&& (ZERO ||| NEGATIV) = s &&& (ZERO ||| NEGATIV) ∧
    ((s ||| CARRY) &&& cpuflags_not OVERFLOW) &&& (ZERO ||| NEGATIV) = s &&& (ZERO ||| NEGATIV) ∧
    ((s &&& cpuflags_not CARRY) ||| OVERFLOW) &&& (ZERO ||| NEGATIV) = s &&& (ZERO ||| NEGATIV) ∧
    ((s &&& cpuflags_not CARRY) &&& cpuflags_not OVERFLOW) &&& (ZERO ||| NEGATIV)
      = s &&& (ZERO ||| NEGATIV) := by
  decide

theorem opcodes_map_d0 : OPCODES_MAP 0xd0 = some (createOpCode 0xd0 "BNE" 2 2 .NoneAddressing) := by rfl
theorem opcodes_map_70 : OPCODES_MAP 0x70 = some (createOpCode 0x70 "BVS" 2 2 .NoneAddressing) := by rfl
theorem opcodes_map_50 : OPCODES_MAP 0x50 = some (createOpCode 0x50 "BVC" 2 2 .NoneAddressing) := by rfl
theorem opcodes_map_30 : OPCODES_MAP 0x30 = some (createOpCode 0x30 "BMI" 2 2 .NoneAddressing) := by rfl
theorem opcodes_map_f0 : OPCODES_MAP 0xf0 = some (createOpCode 0xf0 "BEQ" 2 2 .NoneAddressing) := by rfl
theorem opcodes_map_b0 : OPCODES_MAP 0xb0 = some (createOpCode 0xb0 "BCS" 2 2 .NoneAddressing) := by rfl
theorem opcodes_map_90 : OPCODES_MAP 0x90 = some (createOpCode 0x90 "BCC" 2 2 .NoneAddressing) := by rfl
theorem opcodes_map_10 : OPCODES_MAP 0x10 = some (createOpCode 0x10 "BPL" 2 2 .NoneAddressing) := by rfl

theorem u8_flags : u8 CARRY = CARRY ∧ u8 ZERO = ZERO ∧ u8 OVERFLOW = OVERFLOW
    ∧ u8 NEGATIV = NEGATIV := by decide

theorem run_branch (condition : Bool) (c : NesCpu) (hpc : c.program_counter < 0xFFFF) :
    (branch condition).run c = Result.ok ()
      { c with program_counter :=
          if condition = true
          then u16_of_int ((c.program_counter : Int) + 1 + i8 (c.memory c.program_counter))
          else c.program_counter } := by
  cases condition <;> simp [branch, run_mem_read, hpc]

theorem u16_of_int_one : u16_of_int 1 = 1 := by decide

set_option maxHeartbeats 1600000 in
theorem step_branch (c : NesCpu) (code flag : Nat) (want : Bool)
    (hcode : (code, flag, want) ∈
      [(0xd0, ZERO, false), (0xf0, ZERO, true), (0xb0, CARRY, true), (0x90, CARRY, false),
       (0x30, NEGATIV, true), (0x10, NEGATIV, false), (0x70, OVERFLOW, true),
       (0x50, OVERFLOW, false)])
    (hpc : c.program_counter + 1 < 0xFFFF)
    (hop : c.memory c.program_counter = code) :
    step.run c = Result.ok false
      { c with program_counter :=
          if decide (c.status &&& flag ≠ 0) = want
          then (if c.program_counter + 1
                = u16_of_int ((c.program_counter : Int) + 1 + 1
                    + i8 (c.memory (c.program_counter + 1)))
            then c.program_counter + 2
            else u16_of_int ((c.program_counter : Int) + 1 + 1
                    + i8 (c.memory (c.program_counter + 1))))
          else c.program_counter + 2 } := by
  have e0 : c.program_counter < 65535 := by omega
  have e1 : (c.program_counter + 1) % 65536 = c.program_counter + 1 := by omega
  have e2 : (c.program_counter + 1 + 1) % 65536 = c.program_counter + 2 := by omega
  have e3 : c.program_counter + 1 < 65535 := hpc
  obtain ⟨f1, f2, f3, f4⟩ := u8_flags
  simp only [List.mem_cons, Prod.mk.injEq, List.mem_singleton, List.not_mem_nil, or_false] at hcode
  rcases hcode with h | h | h | h | h | h | h | h <;> obtain ⟨hc, hf, hw⟩ := h <;>
    subst hc hf hw
  · simp [step, run_mem_read, e0, e3, hop, opcodes_map_d0, switch_code, u16, e1, createOpCode,
      run_branch, u16_of_int_one, f1, f2, f3, f4]
    generalize u16_of_int ((c.program_counter : Int) + 1 + 1
      + i8 (c.memory (c.program_counter + 1))) = T
    by_cases hz : c.status &&& ZERO = 0 <;> by_cases hT : c.program_counter + 1 = T <;>
      simp [hz, hT, e2] <;> omega
  · simp [step, run_mem_read, e0, e3, hop, opcodes_map_f0, switch_code, u16, e1, createOpCode,
      run_branch, u16_of_int_one, f1, f2, f3, f4]
    generalize u16_of_int ((c.program_counter : Int) + 1 + 1
      + i8 (c.memory (c.program_counter + 1))) = T
    by_cases hz : c.status &&& ZERO = 0 <;> by_cases hT : c.program_counter + 1 = T <;>
      simp [hz, hT, e2] <;> omega
  · simp [step, run_mem_read, e0, e3, hop, opcodes_map_b0, switch_code, u16, e1, createOpCode,
      run_branch, u16_of_int_one, f1, f2, f3, f4]
    generalize u16_of_int ((c.program_counter : Int) + 1 + 1
      + i8 (c.memory (c.program_counter + 1))) = T
    by_cases hz : c.status &&& CARRY = 0 <;> by_cases hT : c.program_counter + 1 = T <;>
      simp [hz, hT, e2] <;> omega
  · simp [step, run_mem_read, e0, e3, hop, opcodes_map_90, switch_code, u16, e1, createOpCode,
      run_branch, u16_of_int_one, f1, f2, f3, f4]
    generalize u16_of_int ((c.program_counter : Int) + 1 + 1
      + i8 (c.memory (c.program_counter + 1))) = T
    by_cases hz : c.status &&& CARRY = 0 <;> by_cases hT : c.program_counter + 1 = T <;>
      simp [hz, hT, e2] <;> omega
  · simp [step, run_mem_read, e0, e3, hop, opcodes_map_30, switch_code, u16, e1, createOpCode,
      run_branch, u16_of_int_one, f1, f2, f3, f4]
    generalize u16_of_int ((c.program_counter : Int) + 1 + 1
      + i8 (c.memory (c.program_counter + 1))) = T
    by_cases hz : c.status &&& NEGATIV = 0 <;> by_cases hT : c.program_counter + 1 = T <;>
      simp [hz, hT, e2] <;> omega
  · simp [step, run_mem_read, e0, e3, hop, opcodes_map_10, switch_code, u16, e1, createOpCode,
      run_branch, u16_of_int_one, f1, f2, f3, f4]
    generalize u16_of_int ((c.program_counter : Int) + 1 + 1
      + i8 (c.memory (c.program_counter + 1))) = T
    by_cases hz : c.status &&& NEGATIV = 0 <;> by_cases hT : c.program_counter + 1 = T <;>
      simp [hz, hT, e2] <;> omega
  · simp [step, run_mem_read, e0, e3, hop, opcodes_map_70, switch_code, u16, e1, createOpCode,
      run_branch, u16_of_int_one, f1, f2, f3, f4]
    generalize u16_of_int ((c.program_counter : Int) + 1 + 1
      + i8 (c.memory (c.program_counter + 1))) = T
    by_cases hz : c.status &&& OVERFLOW = 0 <;> by_cases hT : c.program_counter + 1 = T <;>
      simp [hz, hT, e2] <;> omega
  · simp [step, run_mem_read, e0, e3, hop, opcodes_map_50, switch_code, u16, e1, createOpCode,
      run_branch, u16_of_int_one, f1, f2, f3, f4]
    generalize u16_of_int ((c.program_counter : Int) + 1 + 1
      + i8 (c.memory (c.program_counter + 1))) = T
    by_cases hz : c.status &&& OVERFLOW = 0 <;> by_cases hT : c.program_counter + 1 = T <;>
      simp [hz, hT, e2] <;> omega

theorem branch_target_eq (P d : Nat) (hP : P + 1 < 0xFFFF) (hd : d < 256) :
    (P + 1 = u16_of_int ((P : Int) + 1 + 1 + i8 d) ↔ d = 0xFF) ∧
    u16_of_int ((P : Int) + 1 + 1 + i8 d) = (((P : Int) + 2 + i8 d) % 65536).toNat := by
  have e : (P : Int) + 1 + 1 + i8 d = (P : Int) + 2 + i8 d := by ring
  constructor
  · unfold u16_of_int i8
    split <;> omega
  · unfold u16_of_int
    rw [e]

theorem mem_write_then_read (c : NesCpu) (a d : Nat) (ha : a < 0xFFFF) :
    ∃ c', (do mem_write a d; mem_read a).run c = Result.ok d c' := by
  simp [run_mem_write, run_mem_read, ha]

/-! ## Comparison, stack flags and instructions that leave the program counter alone -/

theorem get_operand_address_ok (mode : AddressingMode) (c c1 : NesCpu) (addr : Nat)
    (h : (get_operand_address mode).run c = Result.ok addr c1) : c1 = c := by
  cases mode <;>
    simp only [get_operand_address, mem_read_u16, mem_read, M.run_bind, M.run_get_cpu,
      M.run_pure, M.run_raise] at h <;>
    (repeat (split_ifs at h <;> try simp only [] at h)) <;>
    (try simp only [Result.ok.injEq] at h) <;>
    first
      | exact h.2.symm
      | cases h

theorem land_of_mask (a b m f : Nat) (hf : m &&& f = f) (h : a &&& m = b &&& m) :
    a &&& f = b &&& f := by
  rw [← hf, ← Nat.land_assoc, ← Nat.land_assoc, h]

set_option maxRecDepth 100000 in
theorem status_bits_after_carry : ∀ s < 256,
    (s ||| CARRY) < 256 ∧ (s ||| CARRY) &&& CARRY ≠ 0 ∧
    (s ||| CARRY) &&& OVERFLOW = s &&& OVERFLOW ∧
    (s &&& cpuflags_not CARRY) < 256 ∧ (s &&& cpuflags_not CARRY) &&& CARRY = 0 ∧
    (s &&& cpuflags_not CARRY) &&& OVERFLOW = s &&& OVERFLOW := by
  decide

theorem u8_of_int_sub (r m : Nat) (hr : r < 256) (hm : m < 256) :
    u8_of_int ((r : Int) - (m : Int)) = (r + 256 - m) % 256 := by
  unfold u8_of_int
  omega

theorem run_compare (mode : AddressingMode) (r addr : Nat) (c c1 : NesCpu)
    (hres : (get_operand_address mode).run c = Result.ok addr c1) (haddr : addr < 0xFFFF) :
    (NesCpu.compare mode r).run c =
      (update_zero_and_negative_flags (u8_of_int ((r : Int) - (c.memory addr : Int)))).run
        { c with status :=
            if c.memory addr ≤ r then c.status ||| CARRY
            else c.status &&& cpuflags_not CARRY } := by
  obtain rfl := get_operand_address_ok mode c c1 addr hres
  unfold NesCpu.compare
  rw [M.run_bind, hres]
  simp only [M.run_bind, run_mem_read _ _ haddr]
  split_ifs <;> simp

theorem status_after_update (t v : Nat) (ht : t < 256) :
    ((if v >>> 7 = 1
      then (if v = 0 then t ||| ZERO else t &&& cpuflags_not ZERO) ||| NEGATIV
      else (if v = 0 then t ||| ZERO else t &&& cpuflags_not ZERO) &&& cpuflags_not NEGATIV)
        &&& ZERO ≠ 0 ↔ v = 0) ∧
    ((if v >>> 7 = 1
      then (if v = 0 then t ||| ZERO else t &&& cpuflags_not ZERO) ||| NEGATIV
      else (if v = 0 then t ||| ZERO else t &&& cpuflags_not ZERO) &&& cpuflags_not NEGATIV)
        &&& NEGATIV ≠ 0 ↔ v >>> 7 = 1) ∧
    (if v >>> 7 = 1
      then (if v = 0 then t ||| ZERO else t &&& cpuflags_not ZERO) ||| NEGATIV
      else (if v = 0 then t ||| ZERO else t &&& cpuflags_not ZERO) &&& cpuflags_not NEGATIV)
        &&& 0b01111101 = t &&& 0b01111101 := by
  obtain ⟨p1, p2, p3, p4, p5, p6, p7, p8, p9, p10, p11, p12⟩ := status_bits_after_update t ht
  by_cases h0 : v = 0 <;> by_cases h7 : v >>> 7 = 1
  · rw [if_pos h7, if_pos h0]; exact ⟨iff_of_true p1 h0, iff_of_true p2 h7, p3⟩
  · rw [if_neg h7, if_pos h0]; exact ⟨iff_of_true p4 h0, iff_of_false (not_not.mpr p5) h7, p6⟩
  · rw [if_pos h7, if_neg h0]; exact ⟨iff_of_false (not_not.mpr p7) h0, iff_of_true p8 h7, p9⟩
  · rw [if_neg h7, if_neg h0]
    exact ⟨iff_of_false (not_not.mpr p10) h0, iff_of_false (not_not.mpr p11) h7, p12⟩

theorem run_php (c : NesCpu) (hsp : c.stack_pointer < 256) :
    php.run c =
      Result.ok ()
        { c with
          memory := fun a =>
            if a = 0x100 + c.stack_pointer then c.status ||| BREAK ||| BREAK2 else c.memory a
          stack_pointer := (c.stack_pointer + 255) % 256 } := by
  simp [php, run_stack_push, hsp]

theorem run_plp (c : NesCpu) :
    plp.run c =
      Result.ok ()
        { c with
          status := (c.memory (0x100 + (c.stack_pointer + 1) % 256) &&& cpuflags_not BREAK)
            ||| BREAK2
          stack_pointer := (c.stack_pointer + 1) % 256 } := by
  simp [plp, run_stack_pop]

set_option maxRecDepth 100000 in
theorem status_bits_after_php_plp : ∀ s < 256,
    (s ||| BREAK ||| BREAK2) &&& BREAK ≠ 0 ∧ (s ||| BREAK ||| BREAK2) &&& BREAK2 ≠ 0 ∧
    (s ||| BREAK ||| BREAK2) &&& 0b11001111 = s &&& 0b11001111 ∧
    (((s ||| BREAK ||| BREAK2) &&& cpuflags_not BREAK) ||| BREAK2) &&& BREAK = 0 ∧
    (((s ||| BREAK ||| BREAK2) &&& cpuflags_not BREAK) ||| BREAK2) &&& BREAK2 ≠ 0 ∧
    (((s ||| BREAK ||| BREAK2) &&& cpuflags_not BREAK) ||| BREAK2) &&& 0b11001111
      = s &&& 0b11001111 ∧
    (((s ||| BREAK ||| BREAK2) &&& cpuflags_not BREAK) ||| BREAK2)
      = (s &&& cpuflags_not BREAK) ||| BREAK2 := by
  decide

instance KeepsProgramCounter.pure {α : Type} (a : α) : KeepsProgramCounter (pure a : M α) :=
  ⟨fun _ => rfl⟩

instance KeepsProgramCounter.bind {α β : Type} (x : M α) (f : α → M β)
    [hx : KeepsProgramCounter x] [hf : ∀ a, KeepsProgramCounter (f a)] :
    KeepsProgramCounter (x >>= f) := by
  constructor
  intro c
  have h1 := hx.out c
  rw [M.run_bind]
  cases hxc : x.run c with
  | ok a c2 =>
    rw [hxc] at h1
    exact ((hf a).out c2).trans h1
  | fault e c2 =>
    rw [hxc] at h1
    exact h1

instance KeepsProgramCounter.ite {α : Type} (p : Prop) [Decidable p] (x y : M α)
    [hx : KeepsProgramCounter x] [hy : KeepsProgramCounter y] :
    KeepsProgramCounter (if p then x else y) := by
  split
  · exact hx
  · exact hy

instance KeepsProgramCounter.get_cpu : KeepsProgramCounter get_cpu := ⟨fun _ => rfl⟩

instance KeepsProgramCounter.modify_cpu (fa fx fy fs fsp : NesCpu → Nat)
    (fm : NesCpu → Nat → Nat) :
    KeepsProgramCounter
      (modify_cpu fun c => NesCpu.mk (fa c) (fx c) (fy c) (fs c) c.program_counter (fsp c) (fm c)) :=
  ⟨fun _ => rfl⟩

instance KeepsProgramCounter.raise {α : Type} (e : Fault) :
    KeepsProgramCounter (raise e : M α) :=
  ⟨fun _ => rfl⟩

instance KeepsProgramCounter.mem_read (addr : Nat) : KeepsProgramCounter (mem_read addr) := by
  constructor
  intro c
  unfold NesCpu.mem_read
  simp only
  split <;> rfl

instance KeepsProgramCounter.mem_write (addr data : Nat) :
    KeepsProgramCounter (mem_write addr data) := by
  constructor
  intro c
  unfold NesCpu.mem_write
  simp only
  split <;> rfl

instance KeepsProgramCounter.mem_read_u16 (pos : Nat) : KeepsProgramCounter (mem_read_u16 pos) := by
  unfold NesCpu.mem_read_u16
  try dsimp only
  infer_instance

instance KeepsProgramCounter.mem_write_u16 (pos data : Nat) : KeepsProgramCounter (mem_write_u16 pos data) := by
  unfold NesCpu.mem_write_u16
  try dsimp only
  infer_instance

instance KeepsProgramCounter.update_zero_and_negative_flags (result : Nat) :
    KeepsProgramCounter (update_zero_and_negative_flags result) := by
  unfold NesCpu.update_zero_and_negative_flags
  try dsimp only
  infer_instance

instance KeepsProgramCounter.update_negative_flags (result : Nat) :
    KeepsProgramCounter (update_negative_flags result) := by
  unfold NesCpu.update_negative_flags
  try dsimp only
  infer_instance

instance KeepsProgramCounter.set_carry_flag : KeepsProgramCounter (set_carry_flag) := by
  unfold NesCpu.set_carry_flag
  try dsimp only
  infer_instance

instance KeepsProgramCounter.clear_carry_flag : KeepsProgramCounter (clear_carry_flag) := by
  unfold NesCpu.clear_carry_flag
  try dsimp only
  infer_instance

instance KeepsProgramCounter.set_register_a (value : Nat) : KeepsProgramCounter (set_register_a value) := by
  unfold NesCpu.set_register_a
  try dsimp only
  infer_instance

instance KeepsProgramCounter.get_operand_address (mode : AddressingMode) :
    KeepsProgramCounter (get_operand_address mode) := by
  unfold NesCpu.get_operand_address
  cases mode <;> infer_instance

instance KeepsProgramCounter.lda (mode : AddressingMode) : KeepsProgramCounter (lda mode) := by
  unfold NesCpu.lda
  try dsimp only
  infer_instance

instance KeepsProgramCounter.ldy (mode : AddressingMode) : KeepsProgramCounter (ldy mode) := by
  unfold NesCpu.ldy
  try dsimp only
  infer_instance

instance KeepsProgramCounter.ldx (mode : AddressingMode) : KeepsProgramCounter (ldx mode) := by
  unfold NesCpu.ldx
  try dsimp only
  infer_instance

instance KeepsProgramCounter.tax : KeepsProgramCounter (tax) := by
  unfold NesCpu.tax
  try dsimp only
  infer_instance

instance KeepsProgramCounter.inx : KeepsProgramCounter (inx) := by
  unfold NesCpu.inx
  try dsimp only
  infer_instance

instance KeepsProgramCounter.iny : KeepsProgramCounter (iny) := by
  unfold NesCpu.iny
  try dsimp only
  infer_instance

instance KeepsProgramCounter.sta (mode : AddressingMode) : KeepsProgramCounter (sta mode) := by
  unfold NesCpu.sta
  try dsimp only
  infer_instance

instance KeepsProgramCounter.andd (mode : AddressingMode) : KeepsProgramCounter (andd mode) := by
  unfold NesCpu.andd
  try dsimp only
  infer_instance

instance KeepsProgramCounter.eor (mode : AddressingMode) : KeepsProgramCounter (eor mode) := by
  unfold NesCpu.eor
  try dsimp only
  infer_instance

instance KeepsProgramCounter.ora (mode : AddressingMode) : KeepsProgramCounter (ora mode) := by
  unfold NesCpu.ora
  try dsimp only
  infer_instance

instance KeepsProgramCounter.add_to_register_a (data : Nat) : KeepsProgramCounter (add_to_register_a data) := by
  unfold NesCpu.add_to_register_a
  try dsimp only
  infer_instance

set_option synthInstance.maxSize 20000 in
instance KeepsProgramCounter.sbc (mode : AddressingMode) : KeepsProgramCounter (sbc mode) := by
  unfold NesCpu.sbc
  try dsimp only
  infer_instance

instance KeepsProgramCounter.adc (mode : AddressingMode) : KeepsProgramCounter (adc mode) := by
  unfold NesCpu.adc
  try dsimp only
  infer_instance

instance KeepsProgramCounter.stack_pop : KeepsProgramCounter (stack_pop) := by
  unfold NesCpu.stack_pop
  try dsimp only
  infer_instance

instance KeepsProgramCounter.stack_push (data : Nat) : KeepsProgramCounter (stack_push data) := by
  unfold NesCpu.stack_push
  try dsimp only
  infer_instance

instance KeepsProgramCounter.stack_pop_u16 : KeepsProgramCounter (stack_pop_u16) := by
  unfold NesCpu.stack_pop_u16
  try dsimp only
  infer_instance

instance KeepsProgramCounter.stack_push_u16 (data : Nat) : KeepsProgramCounter (stack_push_u16 data) := by
  unfold NesCpu.stack_push_u16
  try dsimp only
  infer_instance

instance KeepsProgramCounter.asl_accumulator : KeepsProgramCounter (asl_accumulator) := by
  unfold NesCpu.asl_accumulator
  try dsimp only
  infer_instance

instance KeepsProgramCounter.asl (mode : AddressingMode) : KeepsProgramCounter (asl mode) := by
  unfold NesCpu.asl
  try dsimp only
  infer_instance

instance KeepsProgramCounter.lsr_accumulator : KeepsProgramCounter (lsr_accumulator) := by
  unfold NesCpu.lsr_accumulator
  try dsimp only
  infer_instance

instance KeepsProgramCounter.lsr (mode : AddressingMode) : KeepsProgramCounter (lsr mode) := by
  unfold NesCpu.lsr
  try dsimp only
  infer_instance

instance KeepsProgramCounter.rol_accumulator : KeepsProgramCounter (rol_accumulator) := by
  unfold NesCpu.rol_accumulator
  try dsimp only
  infer_instance

instance KeepsProgramCounter.rol (mode : AddressingMode) : KeepsProgramCounter (rol mode) := by
  unfold NesCpu.rol
  try dsimp only
  infer_instance

instance KeepsProgramCounter.ror_accumulator : KeepsProgramCounter (ror_accumulator) := by
  unfold NesCpu.ror_accumulator
  try dsimp only
  infer_instance

instance KeepsProgramCounter.ror (mode : AddressingMode) : KeepsProgramCounter (ror mode) := by
  unfold NesCpu.ror
  try dsimp only
  infer_instance

instance KeepsProgramCounter.inc (mode : AddressingMode) : KeepsProgramCounter (inc mode) := by
  unfold NesCpu.inc
  try dsimp only
  infer_instance

instance KeepsProgramCounter.dey : KeepsProgramCounter (dey) := by
  unfold NesCpu.dey
  try dsimp only
  infer_instance

instance KeepsProgramCounter.dex : KeepsProgramCounter (dex) := by
  unfold NesCpu.dex
  try dsimp only
  infer_instance

instance KeepsProgramCounter.dec (mode : AddressingMode) : KeepsProgramCounter (dec mode) := by
  unfold NesCpu.dec
  try dsimp only
  infer_instance

instance KeepsProgramCounter.pla : KeepsProgramCounter (pla) := by
  unfold NesCpu.pla
  try dsimp only
  infer_instance

instance KeepsProgramCounter.plp : KeepsProgramCounter (plp) := by
  unfold NesCpu.plp
  try dsimp only
  infer_instance

instance KeepsProgramCounter.php : KeepsProgramCounter (php) := by
  unfold NesCpu.php
  try dsimp only
  infer_instance

set_option synthInstance.maxSize 20000 in
instance KeepsProgramCounter.bit (mode : AddressingMode) : KeepsProgramCounter (bit mode) := by
  unfold NesCpu.bit
  try dsimp only
  infer_instance

instance KeepsProgramCounter.compare (mode : AddressingMode) (compare_with : Nat) :
    KeepsProgramCounter (compare mode compare_with) := by
  unfold NesCpu.compare
  try dsimp only
  infer_instance

instance LeavesByBreak.pure_false : LeavesByBreak (pure false : M Bool) :=
  ⟨fun _ _ _ h => by cases h; rfl⟩

instance LeavesByBreak.bind {α : Type} (x : M α) (f : α → M Bool)
    [hf : ∀ a, LeavesByBreak (f a)] : LeavesByBreak (x >>= f) := by
  constructor
  intro c b c1 h
  rw [M.run_bind] at h
  cases hxc : x.run c with
  | ok a c2 =>
    rw [hxc] at h
    exact (hf a).out c2 b c1 h
  | fault e c2 =>
    rw [hxc] at h
    cases h

instance LeavesByBreak.ite (p : Prop) [Decidable p] (x y : M Bool)
    [hx : LeavesByBreak x] [hy : LeavesByBreak y] : LeavesByBreak (if p then x else y) := by
  split
  · exact hx
  · exact hy

theorem control_transfer_codes_ne (code : Nat) (h : code ∉ CONTROL_TRANSFER_CODES) :
    code ≠ 0x00 ∧ code ≠ 0x4c ∧ code ≠ 0x6c ∧ code ≠ 0x20 ∧ code ≠ 0x60 ∧ code ≠ 0x40 ∧
    code ≠ 0xd0 ∧ code ≠ 0x70 ∧ code ≠ 0x50 ∧ code ≠ 0x10 ∧ code ≠ 0x30 ∧ code ≠ 0xf0 ∧
    code ≠ 0xb0 ∧ code ≠ 0x90 := by
  simpa [CONTROL_TRANSFER_CODES] using h

set_option synthInstance.maxSize 20000 in
theorem switch_code_keeps_program_counter (code : Nat) (opcode : OpCode)
    (h : code ∉ CONTROL_TRANSFER_CODES) : KeepsProgramCounter (switch_code code opcode) := by
  obtain ⟨h1, h2, h3, h4, h5, h6, h7, h8, h9, h10, h11, h12, h13, h14⟩ :=
    control_transfer_codes_ne code h
  unfold NesCpu.switch_code
  simp only [if_neg h1, if_neg h2, if_neg h3, if_neg h4, if_neg h5, if_neg h6, if_neg h7,
    if_neg h8, if_neg h9, if_neg h10, if_neg h11, if_neg h12, if_neg h13, if_neg h14]
  infer_instance

set_option synthInstance.maxSize 20000 in
theorem switch_code_leaves_by_break (code : Nat) (opcode : OpCode)
    (h : code ∉ CONTROL_TRANSFER_CODES) : LeavesByBreak (switch_code code opcode) := by
  obtain ⟨h1, h2, h3, h4, h5, h6, h7, h8, h9, h10, h11, h12, h13, h14⟩ :=
    control_transfer_codes_ne code h
  unfold NesCpu.switch_code
  simp only [if_neg h1, if_neg h2, if_neg h3, if_neg h4, if_neg h5, if_neg h6, if_neg h7,
    if_neg h8, if_neg h9, if_neg h10, if_neg h11, if_neg h12, if_neg h13, if_neg h14]
  infer_instance

set_option maxRecDepth 100000 in
theorem opcodes_map_of_mem : ∀ op ∈ CPU_OPS_CODES, OPCODES_MAP op.code = some op := by
  decide

theorem advance_eq (p len : Nat) :
    u16 (u16 (p + 1) + u16_of_int ((len : Int) - 1)) = (p + len) % 65536 := by
  unfold u16 u16_of_int
  omega

theorem ok_of_bind {α β : Type} {x : M α} {f : α → M β} {c c1 : NesCpu} {b : β}
    (h : (x >>= f).run c = Result.ok b c1) :
    ∃ a c2, x.run c = Result.ok a c2 ∧ (f a).run c2 = Result.ok b c1 := by
  rw [M.run_bind] at h
  cases hx : x.run c with
  | ok a c2 =>
    rw [hx] at h
    exact ⟨a, c2, rfl, h⟩
  | fault e2 c2 =>
    rw [hx] at h
    cases h

theorem step_plain (c c1 : NesCpu) (op : OpCode) (b : Bool)
    (hmap : OPCODES_MAP (c.memory c.program_counter) = some op)
    (hnot : c.memory c.program_counter ∉ CONTROL_TRANSFER_CODES)
    (h : step.run c = Result.ok b c1) :
    b = false ∧ c1.program_counter = (c.program_counter + op.len) % 65536 := by
  have hk := switch_code_keeps_program_counter (c.memory c.program_counter) op hnot
  have hb := switch_code_leaves_by_break (c.memory c.program_counter) op hnot
  unfold step at h
  obtain ⟨c0, c2, h0, h⟩ := ok_of_bind h
  cases h0
  obtain ⟨code, c2, hcode, h⟩ := ok_of_bind h
  have hc : code = c.memory c.program_counter ∧ c2 = c := by
    unfold NesCpu.mem_read at hcode
    simp only at hcode
    split at hcode
    · simp only [Result.ok.injEq] at hcode
      exact ⟨hcode.1.symm, hcode.2.symm⟩
    · cases hcode
  obtain ⟨rfl, rfl⟩ := hc
  obtain ⟨u, c3, hmod, h⟩ := ok_of_bind h
  cases hmod
  obtain ⟨c4, c5, hget, h⟩ := ok_of_bind h
  cases hget
  dsimp only at h
  rw [hmap] at h
  simp only [M.run_bind, M.run_pure] at h
  have hpc := hk.out { c2 with program_counter := u16 (c2.program_counter + 1) }
  cases hsw : (switch_code (c2.memory c2.program_counter) op).run
      { c2 with program_counter := u16 (c2.program_counter + 1) } with
  | fault e c6 =>
    rw [hsw] at h
    cases h
  | ok r c6 =>
    rw [hsw] at h hpc
    have hr := hb.out _ _ _ hsw
    subst hr
    simp only [Result.cpu] at hpc
    simp [hpc] at h
    obtain ⟨rfl, rfl⟩ := h
    exact ⟨rfl, by simp [hpc, advance_eq]⟩

/-! ## The overflow test of the addition read as signed arithmetic -/

theorem land_0x80_ne_zero (x : Nat) : x &&& 0x80 ≠ 0 ↔ x.testBit 7 = true := by
  have h : (0x80 : Nat) = 2 ^ 7 := by norm_num
  rw [h, Nat.and_two_pow]
  cases x.testBit 7 <;> simp

theorem testBit_7_byte (v : Nat) (hv : v < 256) : v.testBit 7 = decide (128 ≤ v) := by
  rw [Nat.testBit_to_div_mod]
  congr 1
  apply propext
  omega

theorem i8_byte (v : Nat) (hv : v < 256) :
    i8 v = if v < 128 then (v : Int) else (v : Int) - 256 := by
  unfold i8
  rw [Nat.mod_eq_of_lt hv]

theorem overflow_test_signed (a m cin : Nat) (ha : a < 256) (hm : m < 256) (hcin : cin ≤ 1) :
    (m ^^^ (a + m + cin) % 256) &&& ((a + m + cin) % 256 ^^^ a) &&& 0x80 ≠ 0 ↔
      (i8 a + i8 m + (cin : Int) < -128 ∨ 127 < i8 a + i8 m + (cin : Int)) := by
  have hr : (a + m + cin) % 256 < 256 := Nat.mod_lt _ (by decide)
  rw [land_0x80_ne_zero, Nat.testBit_and, Nat.testBit_xor, Nat.testBit_xor,
    testBit_7_byte a ha, testBit_7_byte m hm, testBit_7_byte _ hr, i8_byte a ha, i8_byte m hm]
  by_cases h1 : 128 ≤ a <;> by_cases h2 : 128 ≤ m <;> by_cases h3 : 128 ≤ (a + m + cin) % 256 <;>
    simp [h1, h2, h3] <;> omega

/-! ## Where a jump or a branch ends, target by target -/

/-- What one step leaves in `program_counter` when JMP-indirect is executed at `P` with
pointer `p`, all bytes read lying inside `memory`. The arm fetches the target `t`: low byte
`mem[p]` and high byte `mem[p & 0xFF00]` when the low byte of `p` is `0xFF`, the
little-endian word at `p`, `p + 1` otherwise. The step ends on `t` for every target but
`P + 1`; that one equals the counter saved after the fetch, the loop's test takes it for
untouched and the step ends on `P + 3`. -/
theorem step_jmp_indirect_target (c : NesCpu) (p : Nat)
    (hmem : ∀ a, c.memory a < 256)
    (hpc : c.program_counter + 2 < 0xFFFF)
    (hop : c.memory c.program_counter = 0x6C)
    (hptr : p = 256 * c.memory (c.program_counter + 2) + c.memory (c.program_counter + 1))
    (hin : if p % 256 = 0xFF then p < 0xFFFF else p + 1 < 0xFFFF) :
    ∃ c' t, step.run c = Result.ok false c' ∧
      t = (if p % 256 = 0xFF then 256 * c.memory (p &&& 0xFF00) + c.memory p
        else 256 * c.memory (p + 1) + c.memory p) ∧
      c'.program_counter = (if t = c.program_counter + 1 then c.program_counter + 3 else t) ∧
      c'.register_a = c.register_a ∧ c'.register_x = c.register_x ∧
      c'.register_y = c.register_y ∧ c'.status = c.status ∧
      c'.stack_pointer = c.stack_pointer ∧ c'.memory = c.memory := by
  have hlo := hmem (c.program_counter + 1)
  have hhi := hmem (c.program_counter + 2)
  by_cases hff : p % 256 = 0xFF
  · have h1 : c.memory (c.program_counter + 1) = 0xFF := by omega
    have h2 : c.memory (c.program_counter + 2) ≠ 0xFF := by
      rw [if_pos hff] at hin; omega
    have h3 : p &&& 0xFF00 = 256 * c.memory (c.program_counter + 2) := by
      rw [and_0xFF00 _ (by omega)]; omega
    have h4 : p = 256 * c.memory (c.program_counter + 2) + 0xFF := by omega
    refine ⟨_, _, step_jmp_indirect_page_end c hmem hpc hop h1 h2, rfl, ?_, rfl, rfl, rfl, rfl,
      rfl, rfl⟩
    rw [if_pos hff, h3, h4]
    simp only [eq_comm]
  · have h1 : c.memory (c.program_counter + 1) ≠ 0xFF := by omega
    rw [if_neg hff] at hin
    refine ⟨_, _, step_jmp_indirect_inside_page c hmem hpc hop h1 (by omega), rfl, ?_, rfl, rfl,
      rfl, rfl, rfl, rfl⟩
    rw [if_neg hff, hptr]
    simp only [eq_comm]

/-- What one step leaves in `program_counter` when one of the eight conditional branches is
at `P` with displacement byte `d` at `P + 1`, both inside `memory`; the opcodes are listed
with the flag each tests and the flag value on which it branches. A branch not taken ends
on `P + 2`. A branch taken ends on `(P + 2 + signed(d)) mod 2^16` for every `d` but `0xFF`;
with `d == 0xFF` the method assigns `P + 1`, the counter saved after the fetch, the loop's
test takes it for untouched and the step ends on `P + 2`. Nothing else changes. -/
theorem step_branch_target (c : NesCpu) (code flag d : Nat) (want : Bool)
    (hcode : (code, flag, want) ∈
      [(0xd0, ZERO, false), (0xf0, ZERO, true), (0xb0, CARRY, true), (0x90, CARRY, false),
       (0x30, NEGATIV, true), (0x10, NEGATIV, false), (0x70, OVERFLOW, true),
       (0x50, OVERFLOW, false)])
    (hpc : c.program_counter + 1 < 0xFFFF)
    (hop : c.memory c.program_counter = code)
    (hd : c.memory (c.program_counter + 1) = d) (hbyte : d < 256) :
    ∃ c', step.run c = Result.ok false c' ∧
      c'.program_counter =
        (if decide (c.status &&& flag ≠ 0) = want
         then (if d = 0xFF then c.program_counter + 2
           else (((c.program_counter : Int) + 2 + i8 d) % 65536).toNat)
         else c.program_counter + 2) ∧
      c'.register_a = c.register_a ∧ c'.register_x = c.register_x ∧
      c'.register_y = c.register_y ∧ c'.status = c.status ∧
      c'.stack_pointer = c.stack_pointer ∧ c'.memory = c.memory := by
  obtain ⟨h1, h2⟩ := branch_target_eq c.program_counter d hpc hbyte
  refine ⟨_, step_branch c code flag want hcode hpc hop, ?_, rfl, rfl, rfl, rfl, rfl, rfl⟩
  simp only [hd]
  by_cases hcond : decide (c.status &&& flag ≠ 0) = want
  · by_cases hff : d = 0xFF
    · rw [if_pos hcond, if_pos hcond, if_pos (h1.mpr hff), if_pos hff]
    · rw [if_pos hcond, if_pos hcond, if_neg (fun h => hff (h1.mp h)), if_neg hff, h2]
  · rw [if_neg hcond, if_neg hcond]

/-! ## The claims -/

/-- C1: on a freshly constructed CPU (whatever its uninitialised stack pointer and memory
hold), `load_and_run([0xA9, v, 0x00])` returns for every byte `v`, given at least two loop
iterations, with `register_a == v`, Zero set iff `v == 0` and Negative set iff bit 7 of `v`
is 1. -/
theorem C1_lda_immediate (v : Nat) (hv : v < 256) (stack_pointer : Nat) (memory : Nat → Nat)
    (fuel : Nat) (hfuel : 2 ≤ fuel) :
    ∃ c', load_and_run fuel [0xA9, v, 0x00] (NesCpu.new stack_pointer memory)
        = Outcome.returned () c' ∧
      c'.register_a = v ∧ (c'.status &&& ZERO ≠ 0 ↔ v = 0) ∧
      (c'.status &&& NEGATIV ≠ 0 ↔ v.testBit 7 = true) := by
  obtain ⟨n, rfl⟩ : ∃ n, fuel = n + 2 := ⟨fuel - 2, by omega⟩
  obtain ⟨a1, a2, -, b1, b2, -, c1, c2, -, d1, d2, -⟩ := status_bits_after_update 36 (by decide)
  rw [load_and_run_eq _ _ _ (by simp), testBit_7_iff v hv]
  simp [run, run_with_callback, step_lda_immediate, step_brk, memcpy, NesCpu.new,
    cpuflags_from_bits_36]
  by_cases h0 : v = 0 <;> by_cases h7 : v >>> 7 = 1 <;> simp [h0, h7, *]

/-- C1 at `v = 5`: `register_a == 5` with Zero and Negative both clear. -/
theorem C1_lda_immediate_witness :
    ∃ c', load_and_run 2 [0xA9, 5, 0x00] (NesCpu.new 0xFD (fun _ => 0)) = Outcome.returned () c' ∧
      c'.register_a = 5 ∧ c'.status &&& ZERO = 0 ∧ c'.status &&& NEGATIV = 0 := by
  obtain ⟨c', h, ha, hz, hn⟩ :=
    C1_lda_immediate 5 (by decide) 0xFD (fun _ => 0) 2 (by decide)
  refine ⟨c', h, ha, ?_, ?_⟩
  · by_contra hne
    exact absurd (hz.mp hne) (by decide)
  · by_contra hne
    exact absurd (hn.mp hne) (by decide)

/-- C2: from every state, `load_and_run([0xA9, v, 0xAA, 0xE8, 0x00])` (LDA #v; TAX; INX;
BRK) returns, given at least four loop iterations, with `register_x == (v + 1) mod 256` and
`register_a == v`. -/
theorem C2_lda_tax_inx (v : Nat) (_hv : v < 256) (c : NesCpu) (fuel : Nat) (hfuel : 4 ≤ fuel) :
    ∃ c', load_and_run fuel [0xA9, v, 0xAA, 0xE8, 0x00] c = Outcome.returned () c' ∧
      c'.register_x = (v + 1) % 256 ∧ c'.register_a = v := by
  obtain ⟨n, rfl⟩ : ∃ n, fuel = n + 4 := ⟨fuel - 4, by omega⟩
  rw [load_and_run_eq _ _ _ (by simp)]
  simp [run, run_with_callback, step_lda_immediate, step_tax, step_inx, step_brk, memcpy]

/-- C2 at `v = 0xC0`: `register_x == 0xC1`. -/
theorem C2_lda_tax_inx_witness :
    ∃ c', load_and_run 4 [0xA9, 0xC0, 0xAA, 0xE8, 0x00] fresh_cpu = Outcome.returned () c' ∧
      c'.register_x = 0xC1 ∧ c'.register_a = 0xC0 :=
  C2_lda_tax_inx 0xC0 (by decide) fresh_cpu 4 (by decide)

/-- C3: from every state, `load_and_run([0xE8, 0xE8, 0x00])` (INX; INX; BRK) returns, given
at least three loop iterations, with `register_x` equal to its value before the call plus 2,
modulo 256. -/
theorem C3_inx_inx (c : NesCpu) (fuel : Nat) (hfuel : 3 ≤ fuel) :
    ∃ c', load_and_run fuel [0xE8, 0xE8, 0x00] c = Outcome.returned () c' ∧
      c'.register_x = (c.register_x + 2) % 256 := by
  obtain ⟨n, rfl⟩ : ∃ n, fuel = n + 3 := ⟨fuel - 3, by omega⟩
  rw [load_and_run_eq _ _ _ (by simp)]
  simp [run, run_with_callback, step_inx, step_brk, memcpy]

/-- C3 at `register_x = 0xFF`: the result is 1. -/
theorem C3_inx_inx_witness :
    ∃ c', load_and_run 3 [0xE8, 0xE8, 0x00] { fresh_cpu with register_x := 0xFF }
        = Outcome.returned () c' ∧
      c'.register_x = 1 :=
  C3_inx_inx { fresh_cpu with register_x := 0xFF } 3 (by decide)

/-- C4: for every zero-page address `z` and byte `v`, `mem_write(z, v)` followed by
`load_and_run([0xA5, z, 0x00])` (LDA zero-page; BRK) returns with `register_a == v`. -/
theorem C4_lda_zero_page (z v : Nat) (hz : z < 256) (_hv : v < 256) (c : NesCpu) (fuel : Nat)
    (hfuel : 2 ≤ fuel) :
    ∃ c1 c', (mem_write z v).run c = Result.ok () c1 ∧
      load_and_run fuel [0xA5, z, 0x00] c1 = Outcome.returned () c' ∧
      c'.register_a = v := by
  obtain ⟨n, rfl⟩ : ∃ n, fuel = n + 2 := ⟨fuel - 2, by omega⟩
  have hz1 : z < 0xFFFF := by omega
  have hz2 : z ≠ 65533 := by omega
  have hz3 : z ≠ 65532 := by omega
  have hz4 : z ≠ 1538 := by omega
  have hz5 : z ≠ 1537 := by omega
  have hz6 : z ≠ 1536 := by omega
  simp [run_mem_write z v c hz1, load_and_run_eq, run, run_with_callback, step_lda_zero_page,
    step_brk, memcpy, hz, hz2, hz3, hz4, hz5, hz6]

/-- C4 at `z = 0x10`, `v = 0x55`. -/
theorem C4_lda_zero_page_witness :
    ∃ c1 c', (mem_write 0x10 0x55).run fresh_cpu = Result.ok () c1 ∧
      load_and_run 2 [0xA5, 0x10, 0x00] c1 = Outcome.returned () c' ∧
      c'.register_a = 0x55 :=
  C4_lda_zero_page 0x10 0x55 (by decide) (by decide) fresh_cpu 2 (by decide)

/-- C5: with `register_a` set to `a` before the call, `load_and_run([0xAA, 0x00])` (TAX; BRK)
returns with `register_x == a` and `register_a == a`; `register_y` and `stack_pointer` are
those of the caller too: `load_and_run` does not reset the registers. -/
theorem C5_tax_keeps_registers (a : Nat) (_ha : a < 256) (c : NesCpu) (fuel : Nat)
    (hfuel : 2 ≤ fuel) :
    ∃ c', load_and_run fuel [0xAA, 0x00] { c with register_a := a } = Outcome.returned () c' ∧
      c'.register_x = a ∧ c'.register_a = a ∧ c'.register_y = c.register_y ∧
      c'.stack_pointer = c.stack_pointer := by
  obtain ⟨n, rfl⟩ : ∃ n, fuel = n + 2 := ⟨fuel - 2, by omega⟩
  rw [load_and_run_eq _ _ _ (by simp)]
  simp [run, run_with_callback, step_tax, step_brk, memcpy]

/-- C5 at `a = 10`. -/
theorem C5_tax_keeps_registers_witness :
    ∃ c', load_and_run 2 [0xAA, 0x00] { fresh_cpu with register_a := 10 }
        = Outcome.returned () c' ∧
      c'.register_x = 10 ∧ c'.register_a = 10 ∧ c'.register_y = 0 ∧ c'.stack_pointer = 0xFD :=
  C5_tax_keeps_registers 10 (by decide) fresh_cpu 2 (by decide)

/-- C6 fails as stated, at two states. First: `JSR $01FD` at `0x0600` with
`stack_pointer = 0xFD` and `RTS` at `0x01FD`; the call's own push overwrites the `RTS` byte,
and after two steps `program_counter` is `0x01FF`, not `0x0603`, and `stack_pointer` is
`0xFB`, not `0xFD`. Second: `JSR $0660` at `0x065F`, the target being the address right after
the opcode byte; the engine sees `program_counter` unchanged and advances it to `0x0662`, so
the `RTS` at `0x0660` is never executed. -/
theorem C6_jsr_rts_counterexample :
    (jsr_into_stack_cpu.memory jsr_into_stack_cpu.program_counter = 0x20 ∧
      256 * jsr_into_stack_cpu.memory 0x0602 + jsr_into_stack_cpu.memory 0x0601 = 0x01FD ∧
      jsr_into_stack_cpu.memory 0x01FD = 0x60 ∧
      (step.run jsr_into_stack_cpu).isOk = true ∧
      (step.run (step.run jsr_into_stack_cpu).cpu).isOk = true ∧
      (step.run (step.run jsr_into_stack_cpu).cpu).cpu.program_counter = 0x01FF ∧
      (step.run (step.run jsr_into_stack_cpu).cpu).cpu.stack_pointer = 0xFB ∧
      jsr_into_stack_cpu.program_counter + 3 = 0x0603 ∧
      jsr_into_stack_cpu.stack_pointer = 0xFD) ∧
    (jsr_to_operand_cpu.memory jsr_to_operand_cpu.program_counter = 0x20 ∧
      256 * jsr_to_operand_cpu.memory 0x0661 + jsr_to_operand_cpu.memory 0x0660 = 0x0660 ∧
      jsr_to_operand_cpu.memory 0x0660 = 0x60 ∧
      (step.run jsr_to_operand_cpu).isOk = true ∧
      (step.run jsr_to_operand_cpu).cpu.program_counter = 0x0662 ∧
      (step.run (step.run jsr_to_operand_cpu).cpu).isOk = true ∧
      (step.run (step.run jsr_to_operand_cpu).cpu).cpu.program_counter = 0x0663 ∧
      (step.run (step.run jsr_to_operand_cpu).cpu).cpu.stack_pointer = 0xFB ∧
      jsr_to_operand_cpu.program_counter + 3 = 0x0662 ∧
      jsr_to_operand_cpu.stack_pointer = 0xFD) := by
  decide

/-- C6 (amended): if a JSR to `T` is encoded at `P = program_counter`, the byte at `T` is
RTS, `T` is not `P + 1`, neither of the two stack slots the call writes
(`0x0100 + stack_pointer` and `0x0100 + (stack_pointer - 1) mod 256`) is `P + 1`, `P + 2` or
`T`, and all these addresses are inside `memory`, then the first step leaves
`program_counter == T` and the second leaves `program_counter == P + 3` and `stack_pointer`
as it was before the JSR. -/
theorem C6_jsr_rts_amended (c : NesCpu) (T : Nat)
    (hsp : c.stack_pointer < 256)
    (hpc : c.program_counter + 2 < 0xFFFF)
    (hT : T < 0xFFFF)
    (hop : c.memory c.program_counter = 0x20)
    (hlo : c.memory (c.program_counter + 1) = T % 256)
    (hhi : c.memory (c.program_counter + 2) = T / 256)
    (hrts : c.memory T = 0x60)
    (hne : T ≠ c.program_counter + 1)
    (hslots : ∀ a ∈ [c.program_counter + 1, c.program_counter + 2, T],
      a ≠ 0x100 + c.stack_pointer ∧ a ≠ 0x100 + (c.stack_pointer + 255) % 256) :
    ∃ c1 c2, step.run c = Result.ok false c1 ∧ step.run c1 = Result.ok false c2 ∧
      c1.program_counter = T ∧
      c2.program_counter = c.program_counter + 3 ∧
      c2.stack_pointer = c.stack_pointer := by
  obtain ⟨⟨h1a, h1b⟩, ⟨h2a, h2b⟩, ⟨hTa, hTb⟩⟩ :
      (c.program_counter + 1 ≠ 0x100 + c.stack_pointer ∧
        c.program_counter + 1 ≠ 0x100 + (c.stack_pointer + 255) % 256) ∧
      (c.program_counter + 2 ≠ 0x100 + c.stack_pointer ∧
        c.program_counter + 2 ≠ 0x100 + (c.stack_pointer + 255) % 256) ∧
      (T ≠ 0x100 + c.stack_pointer ∧ T ≠ 0x100 + (c.stack_pointer + 255) % 256) :=
    ⟨hslots _ (by simp), hslots _ (by simp), hslots _ (by simp)⟩
  have hT2 : 256 * c.memory (c.program_counter + 2) + c.memory (c.program_counter + 1) = T := by
    omega
  have hjsr := step_jsr c hsp hpc hop (by omega) (by omega) h1a h1b h2a h2b (by omega)
  rw [hT2] at hjsr
  have e1 : ((c.stack_pointer + 254) % 256 + 1) % 256 = (c.stack_pointer + 255) % 256 := by
    omega
  have e2 : ((c.stack_pointer + 254) % 256 + 2) % 256 = c.stack_pointer := by omega
  have e3 : c.stack_pointer ≠ (c.stack_pointer + 255) % 256 := by omega
  refine ⟨_, _, hjsr, step_rts _ hT ?_ ?_ ?_, rfl, ?_, ?_⟩
  · simp [hTa, hTb, hrts]
  · simp [e1]; omega
  · simp [e2, e3]; omega
  · simp [e1, e2, e3]; omega
  · simp [e2]

/-- C6 (amended) at `JSR $0604` placed at `0x0600`: back at `0x0603` with the stack pointer
restored. -/
theorem C6_jsr_rts_amended_witness :
    ∃ c1 c2, step.run jsr_rts_cpu = Result.ok false c1 ∧ step.run c1 = Result.ok false c2 ∧
      c1.program_counter = 0x0604 ∧ c2.program_counter = 0x0603 ∧ c2.stack_pointer = 0xFD :=
  C6_jsr_rts_amended jsr_rts_cpu 0x0604 (by decide) (by decide) (by decide) (by decide)
    (by decide) (by decide) (by decide) (by decide) (by decide)

/-- C7: for every state with an 8-bit `stack_pointer` (0x00 and 0x01 included) and every
16-bit `x`, `stack_push_u16(x)` followed by `stack_pop_u16()` returns `x` and leaves
`stack_pointer` equal to its value before the push. -/
theorem C7_stack_push_pop_u16 (c : NesCpu) (x : Nat) (hsp : c.stack_pointer < 256)
    (hx : x < 65536) :
    ∃ c', (do stack_push_u16 x; stack_pop_u16).run c = Result.ok x c' ∧
      c'.stack_pointer = c.stack_pointer := by
  have e1 : ((c.stack_pointer + 254) % 256 + 1) % 256 = (c.stack_pointer + 255) % 256 := by
    omega
  have e2 : ((c.stack_pointer + 254) % 256 + 2) % 256 = c.stack_pointer := by omega
  have e3 : c.stack_pointer ≠ (c.stack_pointer + 255) % 256 := by omega
  rw [M.run_bind, run_stack_push_u16 x c hsp]
  simp only []
  rw [run_stack_pop_u16]
  · simp [e1, e2, e3]
    exact ⟨_, ⟨by omega, rfl⟩, rfl⟩
  · simp [e1]; omega
  · simp [e2, e3]; omega

/-- C7 at `stack_pointer = 0x00`, where both pushes wrap, and `x = 0xBEEF`. -/
theorem C7_stack_push_pop_u16_witness :
    ∃ c', (do stack_push_u16 0xBEEF; stack_pop_u16).run { fresh_cpu with stack_pointer := 0x00 }
        = Result.ok 0xBEEF c' ∧
      c'.stack_pointer = 0x00 :=
  C7_stack_push_pop_u16 { fresh_cpu with stack_pointer := 0x00 } 0xBEEF (by decide) (by decide)

/-- C8: for every prior status byte and every byte `v`, `update_zero_and_negative_flags(v)`
leaves Zero set iff `v == 0`, Negative set iff bit 7 of `v` is 1, the other six status bits
as they were, and every other member of the machine unchanged. -/
theorem C8_update_zero_and_negative_flags (c : NesCpu) (v : Nat) (hs : c.status < 256)
    (hv : v < 256) :
    ∃ c', (update_zero_and_negative_flags v).run c = Result.ok () c' ∧
      (c'.status &&& ZERO ≠ 0 ↔ v = 0) ∧
      (c'.status &&& NEGATIV ≠ 0 ↔ v.testBit 7 = true) ∧
      c'.status &&& (CARRY ||| INTERRUPT_DISABLE ||| DECIMAL_MODE ||| BREAK ||| BREAK2 ||| OVERFLOW)
        = c.status &&& (CARRY ||| INTERRUPT_DISABLE ||| DECIMAL_MODE ||| BREAK ||| BREAK2
            ||| OVERFLOW) ∧
      c'.register_a = c.register_a ∧ c'.register_x = c.register_x ∧
      c'.register_y = c.register_y ∧ c'.program_counter = c.program_counter ∧
      c'.stack_pointer = c.stack_pointer ∧ c'.memory = c.memory := by
  have hmask : CARRY ||| INTERRUPT_DISABLE ||| DECIMAL_MODE ||| BREAK ||| BREAK2 ||| OVERFLOW
      = 0b01111101 := by decide
  obtain ⟨a1, a2, a3, b1, b2, b3, c1, c2, c3, d1, d2, d3⟩ := status_bits_after_update c.status hs
  rw [run_update_zero_and_negative_flags, testBit_7_iff v hv, hmask]
  refine ⟨_, rfl, ?_⟩
  by_cases h0 : v = 0 <;> by_cases h7 : v >>> 7 = 1 <;> simp [h0, h7, *]

/-- C8 at status `0xFF` and `v = 0`: Zero stays set, Negative is cleared, the other six bits
stay set. -/
theorem C8_update_zero_and_negative_flags_witness :
    ∃ c', (update_zero_and_negative_flags 0).run { fresh_cpu with status := 0xFF }
        = Result.ok () c' ∧
      c'.status &&& ZERO ≠ 0 ∧ c'.status &&& NEGATIV = 0 ∧
      c'.status &&& (CARRY ||| INTERRUPT_DISABLE ||| DECIMAL_MODE ||| BREAK ||| BREAK2 ||| OVERFLOW)
        = 0b01111101 := by
  obtain ⟨c', h, hz, hn, hrest, -⟩ :=
    C8_update_zero_and_negative_flags { fresh_cpu with status := 0xFF } 0 (by decide) (by decide)
  refine ⟨c', h, hz.mpr rfl, ?_, hrest.trans (by decide)⟩
  by_contra hne
  exact absurd (hn.mp hne) (by decide)

/-- C9 fails on the code: `JMP ($0010)` at `0x0600`, where the little-endian word at `0x0010`
is `0x0601`. The pointer's low byte is not `0xFF` and the arm assigns `0x0601`, yet the step
ends with `program_counter == 0x0603`: the target equals the counter saved after the fetch,
so the loop's test `program_counter_state == program_counter` holds and `len - 1` is added.
`JMP ($02FF)` with `0x34` at `0x02FF` and `0x12` at `0x0200` ends on `0x1234`, as claimed. -/
theorem C9_jmp_indirect_advanced_past_target :
    jmp_to_operand_cpu.memory jmp_to_operand_cpu.program_counter = 0x6C ∧
    256 * jmp_to_operand_cpu.memory 0x0602 + jmp_to_operand_cpu.memory 0x0601 = 0x0010 ∧
    0x0010 % 256 ≠ 0xFF ∧
    256 * jmp_to_operand_cpu.memory 0x0011 + jmp_to_operand_cpu.memory 0x0010 = 0x0601 ∧
    (step.run jmp_to_operand_cpu).isOk = true ∧
    (step.run jmp_to_operand_cpu).cpu.program_counter = 0x0603 ∧
    (step.run jmp_page_end_cpu).isOk = true ∧
    (step.run jmp_page_end_cpu).cpu.program_counter = 0x1234 := by
  decide

/-- C10 fails as stated: a program of 63997 bytes satisfies `len + 0x0600 <= 0x10000`, its
last byte (index `0xF9FC`) is 1, and after `load` address `0x0600 + 0xF9FC = 0xFFFC` holds 0,
the low byte of the reset vector written after the copy. -/
theorem C10_load_counterexample :
    long_program.length + 0x0600 ≤ 0x10000 ∧
    long_program[0xF9FC]? = some 1 ∧
    ((load long_program).run fresh_cpu).isOk = true ∧
    ((load long_program).run fresh_cpu).cpu.memory (0x0600 + 0xF9FC) = 0 := by
  refine ⟨by rw [long_program_length]; decide, long_program_last, ?_, long_program_loaded⟩
  rw [run_load _ _ long_program_fits]
  rfl

/-- C10 (amended): for every program with `len + 0x0600 <= 0xFFFF` (the size of `memory`),
after `load` the memory holds `bytes[i]` at `0x0600 + i` for every `i < len` other than the
two reset-vector addresses, `memory[0xFFFC] == 0x00` and `memory[0xFFFD] == 0x06`, every
other byte of memory is unchanged, and so are the registers. -/
theorem C10_load_amended (program : List Nat) (c : NesCpu)
    (hlen : program.length + 0x0600 ≤ 0xFFFF) :
    ∃ c', (load program).run c = Result.ok () c' ∧
      (∀ i (h : i < program.length), 0x0600 + i ≠ 0xFFFC → 0x0600 + i ≠ 0xFFFD →
        c'.memory (0x0600 + i) = program[i]) ∧
      c'.memory 0xFFFC = 0x00 ∧ c'.memory 0xFFFD = 0x06 ∧
      (∀ a, (a < 0x0600 ∨ 0x0600 + program.length ≤ a) → a ≠ 0xFFFC → a ≠ 0xFFFD →
        c'.memory a = c.memory a) ∧
      c'.register_a = c.register_a ∧ c'.register_x = c.register_x ∧
      c'.register_y = c.register_y ∧ c'.status = c.status ∧
      c'.program_counter = c.program_counter ∧ c'.stack_pointer = c.stack_pointer := by
  rw [run_load _ _ (by omega)]
  refine ⟨_, rfl, ?_, by simp, by simp, ?_, rfl, rfl, rfl, rfl, rfl, rfl⟩
  · intro i h h1 h2
    simp [h1, h2, memcpy_apply, h]
  · intro a ha h1 h2
    have h3 : ¬ (1536 ≤ a ∧ a - 1536 < program.length) := by omega
    simp [h1, h2, memcpy_apply, h3]

/-- C10 (amended) at the program `[0xA9, 0x05, 0x00]`. -/
theorem C10_load_amended_witness :
    ∃ c', (load [0xA9, 0x05, 0x00]).run fresh_cpu = Result.ok () c' ∧
      c'.memory 0x0600 = 0xA9 ∧ c'.memory 0x0601 = 0x05 ∧ c'.memory 0x0602 = 0x00 ∧
      c'.memory 0xFFFC = 0x00 ∧ c'.memory 0xFFFD = 0x06 ∧ c'.memory 0x0603 = 0 := by
  obtain ⟨c', h, hprog, hlo, hhi, hrest, -⟩ :=
    C10_load_amended [0xA9, 0x05, 0x00] fresh_cpu (by decide)
  exact ⟨c', h, hprog 0 (by decide) (by decide) (by decide),
    hprog 1 (by decide) (by decide) (by decide), hprog 2 (by decide) (by decide) (by decide),
    hlo, hhi, hrest 0x0603 (by decide) (by decide) (by decide)⟩

/-- C12: from every state with byte-valued reset vector, `reset()` returns with
`register_a == 0`, `register_x == 0`, `status == 0b00100100`, `program_counter` equal to
the little-endian word at `0xFFFC`/`0xFFFD`, and `register_y`, `stack_pointer` and all of
memory unchanged. -/
theorem C12_reset (c : NesCpu) (hlo : c.memory 0xFFFC < 256) (hhi : c.memory 0xFFFD < 256) :
    ∃ c', reset.run c = Result.ok () c' ∧
      c'.register_a = 0 ∧ c'.register_x = 0 ∧ c'.status = 0b00100100 ∧
      c'.program_counter = 256 * c.memory 0xFFFD + c.memory 0xFFFC ∧
      c'.register_y = c.register_y ∧ c'.stack_pointer = c.stack_pointer ∧
      c'.memory = c.memory := by
  have h1 : (256 * c.memory 65533 + c.memory 65532) % 65536
      = 256 * c.memory 65533 + c.memory 65532 := by omega
  simp [reset, mem_read_u16, run_mem_read, u16, cpuflags_from_bits_36, shl8_or, hlo, h1]

/-- C12 on a machine loaded with a program, all registers and flags set: the registers A
and X and the flags are reset, `program_counter` is `0x0600`, Y and the stack pointer stay. -/
theorem C12_reset_witness :
    ∃ c', reset.run
        { register_a := 1, register_x := 2, register_y := 3, status := 0xFF,
          program_counter := 0x1234, stack_pointer := 0x80,
          memory := fun a => if a = 0xFFFD then 0x06 else 0 } = Result.ok () c' ∧
      c'.register_a = 0 ∧ c'.register_x = 0 ∧ c'.status = 0b00100100 ∧
      c'.program_counter = 0x0600 ∧ c'.register_y = 3 ∧ c'.stack_pointer = 0x80 := by
  obtain ⟨c', h, ha, hx, hs, hpc, hy, hsp, -⟩ :=
    C12_reset
      { register_a := 1, register_x := 2, register_y := 3, status := 0xFF,
        program_counter := 0x1234, stack_pointer := 0x80,
        memory := fun a => if a = 0xFFFD then 0x06 else 0 } (by decide) (by decide)
  exact ⟨c', h, ha, hx, hs, hpc, hy, hsp⟩

/-- C13 fails on the code: `memory` is declared with `0xFFFF` elements, not `0x10000`, so
the 16-bit address `0xFFFF` is outside the array and `mem_read(0xFFFF)` and
`mem_write(0xFFFF, d)` have no defined behaviour; address `0xFFFE` is the last valid one. -/
theorem C13_memory_size :
    MEMORY_SIZE = 65535 ∧
    ((mem_read 0xFFFF).run fresh_cpu).raised = some (Fault.undefined_behavior 0xFFFF) ∧
    ((mem_write 0xFFFF 0x12).run fresh_cpu).raised = some (Fault.undefined_behavior 0xFFFF) ∧
    ((do mem_write 0xFFFF 0x12; mem_read 0xFFFF).run fresh_cpu).isOk = false ∧
    ((do mem_write 0xFFFE 0x12; mem_read 0xFFFE).run fresh_cpu).isOk = true :=
  ⟨rfl, rfl, rfl, rfl, rfl⟩

/-- C14: let an engine step fetch the byte `code` (the fetch address lying inside
`memory`). The step aborts with the decode failure `std::out_of_range` if and only if
`code` is the code of no entry of `CPU_OPS_CODES`; and then the iteration ends the run with
that failure, the machine having only advanced `program_counter` past the byte, and the
observer's state is the one before the iteration: the callback was not called. -/
theorem C14_decode_failure (c : NesCpu) (code : Nat)
    (hpc : c.program_counter < MEMORY_SIZE)
    (hfetch : c.memory c.program_counter = code) :
    ((∃ k c1, step.run c = Result.fault (Fault.out_of_range k) c1)
      ↔ ∀ op ∈ CPU_OPS_CODES, op.code ≠ code) ∧
    ((∀ op ∈ CPU_OPS_CODES, op.code ≠ code) →
      step.run c = Result.fault (Fault.out_of_range code)
        { c with program_counter := (c.program_counter + 1) % 65536 } ∧
      ∀ (σ : Type) (callback : σ → NesCpu → σ × NesCpu) (fuel : Nat) (s : σ),
        run_with_callback callback (fuel + 1) s c
          = Outcome.thrown (Fault.out_of_range code) s
              { c with program_counter := (c.program_counter + 1) % 65536 }) := by
  subst hfetch
  have hstep : (∀ op ∈ CPU_OPS_CODES, op.code ≠ c.memory c.program_counter) →
      step.run c = Result.fault (Fault.out_of_range (c.memory c.program_counter))
        { c with program_counter := (c.program_counter + 1) % 65536 } := fun h =>
    step_decode_failure c hpc ((opcodes_map_none_iff _).mpr h)
  refine ⟨⟨?_, fun h => ⟨_, _, hstep h⟩⟩, fun h => ⟨hstep h, ?_⟩⟩
  · rintro ⟨k, c1, h⟩
    exact (opcodes_map_none_iff _).mp (step_out_of_range_only_if c c1 k h)
  · intro σ callback fuel s
    simp only [run_with_callback, hstep h]

set_option maxRecDepth 100000 in
/-- C14 at the byte `0x02`, which is in no table entry: the step is a decode failure. -/
theorem C14_decode_failure_witness :
    (two_byte_cpu 0x24 0 0x02 0).program_counter < MEMORY_SIZE ∧
    (two_byte_cpu 0x24 0 0x02 0).memory (two_byte_cpu 0x24 0 0x02 0).program_counter = 0x02 ∧
    ∃ k c1, step.run (two_byte_cpu 0x24 0 0x02 0) = Result.fault (Fault.out_of_range k) c1 :=
  ⟨by decide, by decide,
    (C14_decode_failure (two_byte_cpu 0x24 0 0x02 0) 0x02 (by decide) (by decide)).1.mpr
      (by decide)⟩

/-- C15 fails on the code at INY (`0xC8`): the arm has no `break`, runs on into the `dec`
arm and calls `get_operand_address(NoneAddressing)`, which throws; `register_y` has been
incremented by then. ASL-accumulator (`0x0A`), the other arm without `break`, runs on into
`rol_accumulator` and raises nothing. -/
theorem C15_iny_resolver_violation :
    OPCODES_MAP 0xC8 = some (createOpCode 0xc8 "INY" 1 2 AddressingMode.NoneAddressing) ∧
    (step.run (two_byte_cpu 0x24 0 0xC8 0x00)).raised
      = some (Fault.runtime_error "modo no soportado, dirección nula") ∧
    (step.run (two_byte_cpu 0x24 0 0xC8 0x00)).cpu.register_y = 1 ∧
    (step.run (two_byte_cpu 0x24 0 0x0A 0x00)).raised = none :=
  ⟨rfl, rfl, rfl, rfl⟩

/-- C16: let a run from `c` retire `n` instructions that do not return, leaving the states
`trace[0]`, ..., `trace[n-1]` (each after its program-counter advance), and then execute
the halt. With any observer that does not change the machine and enough loop iterations,
`run_with_callback` returns, and the observer's final state is its initial state folded
over exactly `trace`, in order: `n` invocations, the i-th on the state after the i-th
instruction, none for the halt; with `n = 0` the observer's state is untouched. -/
theorem C16_observer_invocations {σ : Type} (observe : σ → NesCpu → σ)
    (trace : List NesCpu) (c cf : NesCpu) (s0 : σ) (fuel : Nat)
    (hrun : retires c trace cf) (hfuel : trace.length < fuel) :
    run_with_callback (fun s cpu => (observe s cpu, cpu)) fuel s0 c
      = Outcome.returned (trace.foldl observe s0) cf ∧
    (trace = [] → run_with_callback (fun s cpu => (observe s cpu, cpu)) fuel s0 c
      = Outcome.returned s0 cf) := by
  have h := run_with_callback_of_retires observe trace c cf s0 fuel hrun hfuel
  refine ⟨h, fun hnil => ?_⟩
  rw [h, hnil]
  rfl

/-- C16 on `INX; BRK` at `0x0600` with an observer that logs `program_counter` and
`register_x`: one invocation, on the state after INX. -/
theorem C16_observer_invocations_witness :
    ∃ cf, run_with_callback
        (fun (log : List (Nat × Nat)) cpu =>
          (log ++ [(cpu.program_counter, cpu.register_x)], cpu))
        2 [] (two_byte_cpu 0x24 0 0xE8 0x00)
      = Outcome.returned [(0x0601, 1)] cf :=
  ⟨_, (C16_observer_invocations
    (fun (log : List (Nat × Nat)) cpu => log ++ [(cpu.program_counter, cpu.register_x)])
    [(step.run (two_byte_cpu 0x24 0 0xE8 0x00)).cpu] (two_byte_cpu 0x24 0 0xE8 0x00)
    (step.run (step.run (two_byte_cpu 0x24 0 0xE8 0x00)).cpu).cpu [] 2
    ⟨rfl, rfl⟩ (by decide)).1⟩

/-- C17: for every accumulator byte `A`, operand byte `m` and status byte with carry-in `cin`
(1 if Carry is set, else 0), `add_to_register_a(m)` returns with
`register_a == (A + m + cin) mod 256`, Carry set iff `A + m + cin > 0xFF`, and Overflow set
iff `((m xor result) and (result xor A) and 0x80) != 0`, `result` being the new accumulator. -/
theorem C17_add_to_register_a (c : NesCpu) (m cin : Nat)
    (hA : c.register_a < 256) (hm : m < 256) (hs : c.status < 256)
    (hcin : cin = if c.status &&& CARRY ≠ 0 then 1 else 0) :
    ∃ c', (add_to_register_a m).run c = Result.ok () c' ∧
      c'.register_a = (c.register_a + m + cin) % 256 ∧
      (c'.status &&& CARRY ≠ 0 ↔ c.register_a + m + cin > 0xFF) ∧
      (c'.status &&& OVERFLOW ≠ 0 ↔
        (m ^^^ c'.register_a) &&& (c'.register_a ^^^ c.register_a) &&& 0x80 ≠ 0) := by
  obtain ⟨a1, a2, b1, b2, c1, c2, d1, d2, -⟩ := status_bits_after_adc c.status hs
  have hcin1 : cin ≤ 1 := by rw [hcin]; split <;> omega
  have hsum : (c.register_a + m + cin) % 65536 = c.register_a + m + cin := by omega
  rw [run_add_to_register_a, ← hcin, hsum]
  clear hcin
  refine ⟨_, rfl, rfl, ?_, ?_⟩
  · by_cases hc : c.register_a + m + cin > 0xFF <;>
      by_cases hv : (m ^^^ (c.register_a + m + cin) % 256)
        &&& ((c.register_a + m + cin) % 256 ^^^ c.register_a) &&& 0x80 ≠ 0 <;>
      simp [hc, hv, *]
  · by_cases hc : c.register_a + m + cin > 0xFF <;>
      by_cases hv : (m ^^^ (c.register_a + m + cin) % 256)
        &&& ((c.register_a + m + cin) % 256 ^^^ c.register_a) &&& 0x80 ≠ 0 <;>
      simp [hc, hv, *]

/-- C17 at `A = 0x50`, `m = 0x50`, Carry set: the result is `0xA1`, Carry is cleared and
Overflow is set. -/
theorem C17_add_to_register_a_witness :
    ∃ c', (add_to_register_a 0x50).run { fresh_cpu with register_a := 0x50, status := 0x25 }
        = Result.ok () c' ∧
      c'.register_a = 0xA1 ∧ c'.status &&& CARRY = 0 ∧ c'.status &&& OVERFLOW ≠ 0 := by
  obtain ⟨c', h, ha, hc, hv⟩ :=
    C17_add_to_register_a { fresh_cpu with register_a := 0x50, status := 0x25 } 0x50 1
      (by decide) (by decide) (by decide) (by decide)
  have ha2 : c'.register_a = 0xA1 := ha
  refine ⟨c', h, ha2, ?_, ?_⟩
  · by_contra hne
    exact absurd (hc.mp hne) (by decide)
  · rw [hv, ha2]
    decide

/-- C18 fails on the code: `add_to_register_a` assigns `register_a` without updating Zero
and Negative. `ADC #$00` with `A = 0`, Carry clear gives the result 0 with Zero still clear;
`ADC #$01` with `A = 0x7F` gives `0x80` with Negative still clear; `ADC #$01` with `A = 0`
and Zero set beforehand gives 1 with Zero still set. -/
theorem C18_adc_zero_negative_stale :
    ((step.run (two_byte_cpu 0x24 0x00 0x69 0x00)).raised = none ∧
      (step.run (two_byte_cpu 0x24 0x00 0x69 0x00)).cpu.register_a = 0 ∧
      (step.run (two_byte_cpu 0x24 0x00 0x69 0x00)).cpu.status &&& ZERO = 0) ∧
    ((step.run (two_byte_cpu 0x24 0x7F 0x69 0x01)).raised = none ∧
      (step.run (two_byte_cpu 0x24 0x7F 0x69 0x01)).cpu.register_a = 0x80 ∧
      (step.run (two_byte_cpu 0x24 0x7F 0x69 0x01)).cpu.status &&& NEGATIV = 0) ∧
    ((step.run (two_byte_cpu 0x26 0x00 0x69 0x01)).raised = none ∧
      (step.run (two_byte_cpu 0x26 0x00 0x69 0x01)).cpu.register_a = 1 ∧
      (step.run (two_byte_cpu 0x26 0x00 0x69 0x01)).cpu.status &&& ZERO ≠ 0) := by
  decide

/-- C19 fails on the code: `SBC #$03` with `A = 5` and Carry set (no borrow) leaves
`register_a == 1`, not 2, with Carry clear and Negative set; with Carry clear (borrow) it
leaves 2, not 1. -/
theorem C19_sbc_not_hardware :
    ((step.run (two_byte_cpu 0x25 0x05 0xE9 0x03)).raised = none ∧
      (step.run (two_byte_cpu 0x25 0x05 0xE9 0x03)).cpu.register_a = 1 ∧
      (step.run (two_byte_cpu 0x25 0x05 0xE9 0x03)).cpu.status &&& CARRY = 0 ∧
      (step.run (two_byte_cpu 0x25 0x05 0xE9 0x03)).cpu.status &&& NEGATIV ≠ 0) ∧
    ((step.run (two_byte_cpu 0x24 0x05 0xE9 0x03)).raised = none ∧
      (step.run (two_byte_cpu 0x24 0x05 0xE9 0x03)).cpu.register_a = 2) := by
  decide

/-- C20 fails on the code at `d = 0xFF`: for each of the eight branch opcodes placed at
`0x0600` with its condition true, the step leaves `program_counter == 0x0602`, not
`0x0601`. `branch` assigns `P + 1`, which equals the counter saved after the fetch, so the
loop's test `program_counter_state == program_counter` holds and `len - 1` is added. With
`d = 0xFE` the same BNE ends on `0x0600` and with `d = 0xFB` on `0x05FD`, as claimed. -/
theorem C20_branch_minus_one_advanced :
    (step.run (two_byte_cpu 0x24 0 0xD0 0xFF)).cpu.program_counter = 0x0602 ∧
    (step.run (two_byte_cpu 0x26 0 0xF0 0xFF)).cpu.program_counter = 0x0602 ∧
    (step.run (two_byte_cpu 0x25 0 0xB0 0xFF)).cpu.program_counter = 0x0602 ∧
    (step.run (two_byte_cpu 0x24 0 0x90 0xFF)).cpu.program_counter = 0x0602 ∧
    (step.run (two_byte_cpu 0xA4 0 0x30 0xFF)).cpu.program_counter = 0x0602 ∧
    (step.run (two_byte_cpu 0x24 0 0x10 0xFF)).cpu.program_counter = 0x0602 ∧
    (step.run (two_byte_cpu 0x64 0 0x70 0xFF)).cpu.program_counter = 0x0602 ∧
    (step.run (two_byte_cpu 0x24 0 0x50 0xFF)).cpu.program_counter = 0x0602 ∧
    (step.run (two_byte_cpu 0x24 0 0xD0 0xFF)).raised = none ∧
    (step.run (two_byte_cpu 0x24 0 0xD0 0xFE)).cpu.program_counter = 0x0600 ∧
    (step.run (two_byte_cpu 0x24 0 0xD0 0xFB)).cpu.program_counter = 0x05FD := by
  decide

/-- C21: let the resolver return `addr` (inside `memory`) for the mode, and let `m` be the
byte there. For every register byte `r`, `compare(mode, r)` -- the body of CMP, CPX and CPY,
called with `register_a`, `register_x`, `register_y` -- returns with Carry set iff `m <= r`,
Zero set iff `r == m`, Negative set iff bit 7 of `(r - m) mod 256` is 1, and with Overflow,
the three registers, `stack_pointer`, `program_counter` and all of memory as before. -/
theorem C21_compare_flags (mode : AddressingMode) (c c1 : NesCpu) (r addr : Nat)
    (hs : c.status < 256) (hr : r < 256)
    (hres : (get_operand_address mode).run c = Result.ok addr c1)
    (haddr : addr < 0xFFFF) (hm : c.memory addr < 256) :
    ∃ c', (NesCpu.compare mode r).run c = Result.ok () c' ∧
      (c'.status &&& CARRY ≠ 0 ↔ c.memory addr ≤ r) ∧
      (c'.status &&& ZERO ≠ 0 ↔ r = c.memory addr) ∧
      (c'.status &&& NEGATIV ≠ 0 ↔ ((r + 256 - c.memory addr) % 256).testBit 7 = true) ∧
      c'.status &&& OVERFLOW = c.status &&& OVERFLOW ∧
      c'.register_a = c.register_a ∧ c'.register_x = c.register_x ∧
      c'.register_y = c.register_y ∧ c'.memory = c.memory ∧
      c'.stack_pointer = c.stack_pointer ∧ c'.program_counter = c.program_counter := by
  obtain ⟨a1, a2, a3, b1, b2, b3⟩ := status_bits_after_carry c.status hs
  have hsub := u8_of_int_sub r (c.memory addr) hr hm
  have hbit := testBit_7_iff ((r + 256 - c.memory addr) % 256) (Nat.mod_lt _ (by decide))
  have hz : (r + 256 - c.memory addr) % 256 = 0 ↔ r = c.memory addr := by omega
  have hc0 : 0b01111101 &&& CARRY = CARRY := by decide
  have hv0 : 0b01111101 &&& OVERFLOW = OVERFLOW := by decide
  have ht : (if c.memory addr ≤ r then c.status ||| CARRY
      else c.status &&& cpuflags_not CARRY) < 256 := by
    split <;> assumption
  have hcarry : (if c.memory addr ≤ r then c.status ||| CARRY
      else c.status &&& cpuflags_not CARRY) &&& CARRY ≠ 0 ↔ c.memory addr ≤ r := by
    by_cases hle : c.memory addr ≤ r
    · rw [if_pos hle]; exact iff_of_true a2 hle
    · rw [if_neg hle]; exact iff_of_false (not_not.mpr b2) hle
  have hover : (if c.memory addr ≤ r then c.status ||| CARRY
      else c.status &&& cpuflags_not CARRY) &&& OVERFLOW = c.status &&& OVERFLOW := by
    split <;> assumption
  obtain ⟨q1, q2, q3⟩ := status_after_update _ ((r + 256 - c.memory addr) % 256) ht
  rw [run_compare mode r addr c c1 hres haddr, run_update_zero_and_negative_flags, hsub, hbit]
  refine ⟨_, rfl, ?_, q1.trans hz, q2, ?_, rfl, rfl, rfl, rfl, rfl, rfl⟩
  · refine Iff.trans (Eq.to_iff ?_) hcarry
    exact congrArg (fun n => n ≠ 0) (land_of_mask _ _ _ _ hc0 q3)
  · exact (land_of_mask _ _ _ _ hv0 q3).trans hover

/-- C21 at `CMP #$30` with `r = 0x50`: Carry is set, Zero and Negative are clear and the
operand byte is still `0x30`. -/
theorem C21_compare_flags_witness :
    ∃ c', (NesCpu.compare .Immediate 0x50).run (cpu_with 0x24 0x50 0 0 [(0x0600, 0x30)])
        = Result.ok () c' ∧
      c'.status &&& CARRY ≠ 0 ∧ c'.status &&& ZERO = 0 ∧ c'.status &&& NEGATIV = 0 ∧
      c'.memory 0x0600 = 0x30 := by
  obtain ⟨c', h, hc, hz, hn, -, -, -, -, hmem, -⟩ :=
    C21_compare_flags .Immediate (cpu_with 0x24 0x50 0 0 [(0x0600, 0x30)])
      (cpu_with 0x24 0x50 0 0 [(0x0600, 0x30)]) 0x50 0x0600
      (by decide) (by decide) rfl (by decide) (by decide)
  refine ⟨c', h, hc.mpr (by decide), ?_, ?_, by rw [hmem]; rfl⟩
  · by_contra hne
    exact absurd (hz.mp hne) (by decide)
  · by_contra hne
    exact absurd (hn.mp hne) (by decide)

/-- C22 fails on the code: `dex` computes `register_x + 1`. DEX (`0xCA`) with
`register_x = 5` leaves 6, not 4; with `register_x = 0` it leaves 1, not `0xFF`, and
Negative stays clear. -/
theorem C22_dex_increments :
    ((step.run (cpu_with 0x24 0 5 0 [(0x0600, 0xCA)])).raised = none ∧
      (step.run (cpu_with 0x24 0 5 0 [(0x0600, 0xCA)])).cpu.register_x = 6) ∧
    ((step.run (cpu_with 0x24 0 0 0 [(0x0600, 0xCA)])).cpu.register_x = 1 ∧
      (step.run (cpu_with 0x24 0 0 0 [(0x0600, 0xCA)])).cpu.status &&& NEGATIV = 0) ∧
    ((dex.run (cpu_with 0x24 0 5 0 [])).cpu.register_x = 6) := by
  decide

/-- C23 fails on the code: the carry test of `ror_accumulator` and `ror` is
`(data & 7) == 1`, not `(data & 1) == 1`. With the old value 3 (bit 0 set) and Carry clear,
ROR A (`0x6A`) and ROR `$10` (`0x66`) both produce 1 but leave Carry clear; with the old
value 9, where `9 & 7 == 1`, Carry is set as claimed. -/
theorem C23_ror_carry_test :
    ((step.run (cpu_with 0x24 3 0 0 [(0x0600, 0x6A)])).raised = none ∧
      (step.run (cpu_with 0x24 3 0 0 [(0x0600, 0x6A)])).cpu.register_a = 1 ∧
      (step.run (cpu_with 0x24 3 0 0 [(0x0600, 0x6A)])).cpu.status &&& CARRY = 0) ∧
    ((step.run (cpu_with 0x24 0 0 0 [(0x0600, 0x66), (0x0601, 0x10), (0x0010, 3)])).raised = none ∧
      (step.run (cpu_with 0x24 0 0 0 [(0x0600, 0x66), (0x0601, 0x10), (0x0010, 3)])).cpu.memory 0x10
        = 1 ∧
      (step.run (cpu_with 0x24 0 0 0 [(0x0600, 0x66), (0x0601, 0x10), (0x0010, 3)])).cpu.status
        &&& CARRY = 0) ∧
    ((step.run (cpu_with 0x24 9 0 0 [(0x0600, 0x6A)])).cpu.register_a = 4 ∧
      (step.run (cpu_with 0x24 9 0 0 [(0x0600, 0x6A)])).cpu.status &&& CARRY ≠ 0) := by
  decide

/-- C24 fails on the code: ZeroPage_X and ZeroPage_Y add the index register in 16 bits.
With operand byte `0xFF` and index 1 the resolver returns `0x0100`, not `0x00`; LDA `$FF,X`
(`0xB5`) then loads the byte at `0x0100`, not the byte at `0x0000`. -/
theorem C24_zero_page_indexed_no_wrap :
    ((get_operand_address AddressingMode.ZeroPage_X).run
        (cpu_with 0x24 0 1 0 [(0x0600, 0xFF)])).returned = some 0x0100 ∧
    ((get_operand_address AddressingMode.ZeroPage_Y).run
        (cpu_with 0x24 0 0 1 [(0x0600, 0xFF)])).returned = some 0x0100 ∧
    (step.run (cpu_with 0x24 0 1 0
        [(0x0600, 0xB5), (0x0601, 0xFF), (0x0000, 0x55), (0x0100, 0xAA)])).raised = none ∧
    (step.run (cpu_with 0x24 0 1 0
        [(0x0600, 0xB5), (0x0601, 0xFF), (0x0000, 0x55), (0x0100, 0xAA)])).cpu.register_a
      = 0xAA := by
  decide

/-- C25 fails on the code: Indirect_X reads the high byte at `ptr + 1` computed in 16 bits.
With operand byte `0xFF` and `register_x = 0` the pointer is `0xFF`; memory holds `0x34` at
`0x00FF`, `0x12` at `0x0000` and `0x56` at `0x0100`, and the resolver returns `0x5634`,
not `0x1234`. With the pointer `0x10` the two bytes at `0x10`, `0x11` are used as claimed. -/
theorem C25_indirect_x_no_wrap :
    ((get_operand_address AddressingMode.Indirect_X).run
        (cpu_with 0x24 0 0 0 [(0x0600, 0xFF), (0x00FF, 0x34), (0x0000, 0x12), (0x0100, 0x56)])
      ).returned = some 0x5634 ∧
    ((get_operand_address AddressingMode.Indirect_X).run
        (cpu_with 0x24 0 0x11 0 [(0x0600, 0xFF), (0x0010, 0x34), (0x0011, 0x12)])
      ).returned = some 0x1234 := by
  decide

/-- C26: for every status byte `s` and stack pointer byte, `php` writes `s | BREAK | BREAK2`
at `0x0100 + stack_pointer` -- Break and Break2 set, the other six bits those of `s` -- and
leaves `status` as it was; `php` followed by `plp` leaves `stack_pointer` as it was and
`status == (s & ~BREAK) | BREAK2`: Break clear, Break2 set, the other six bits those of
`s`. -/
theorem C26_php_plp (c : NesCpu) (hs : c.status < 256) (hsp : c.stack_pointer < 256) :
    (∃ c1, php.run c = Result.ok () c1 ∧
      c1.memory (0x0100 + c.stack_pointer) = c.status ||| BREAK ||| BREAK2 ∧
      c1.memory (0x0100 + c.stack_pointer) &&& BREAK ≠ 0 ∧
      c1.memory (0x0100 + c.stack_pointer) &&& BREAK2 ≠ 0 ∧
      c1.memory (0x0100 + c.stack_pointer) &&& 0b11001111 = c.status &&& 0b11001111 ∧
      c1.status = c.status) ∧
    (∃ c2, (do php; plp).run c = Result.ok () c2 ∧
      c2.stack_pointer = c.stack_pointer ∧
      c2.status = (c.status &&& cpuflags_not BREAK) ||| BREAK2 ∧
      c2.status &&& BREAK = 0 ∧ c2.status &&& BREAK2 ≠ 0 ∧
      c2.status &&& 0b11001111 = c.status &&& 0b11001111) := by
  obtain ⟨p1, p2, p3, p4, p5, p6, p7⟩ := status_bits_after_php_plp c.status hs
  have hback : ((c.stack_pointer + 255) % 256 + 1) % 256 = c.stack_pointer := by omega
  constructor
  · rw [run_php c hsp]
    refine ⟨_, rfl, ?_, ?_, ?_, ?_, rfl⟩ <;> simp only [if_true] <;> assumption
  · simp only [M.run_bind, run_php c hsp, run_plp, hback, if_true]
    exact ⟨_, rfl, rfl, p7, p4, p5, p6⟩

/-- C26 at `s = 0xD3`, `stack_pointer = 0xFD`: the byte pushed is `0xF3`, and after the pair
`status == 0xE3` with `stack_pointer == 0xFD`. -/
theorem C26_php_plp_witness :
    (∃ c1, php.run (cpu_with 0xD3 0 0 0 []) = Result.ok () c1 ∧
      c1.memory 0x01FD = 0xF3 ∧ c1.status = 0xD3) ∧
    (∃ c2, (do php; plp).run (cpu_with 0xD3 0 0 0 []) = Result.ok () c2 ∧
      c2.stack_pointer = 0xFD ∧ c2.status = 0xE3) := by
  obtain ⟨⟨c1, h1, hm, -, -, -, hst⟩, ⟨c2, h2, hsp, hs2, -⟩⟩ :=
    C26_php_plp (cpu_with 0xD3 0 0 0 []) (by decide) (by decide)
  exact ⟨⟨c1, h1, hm.trans (by decide), hst⟩, ⟨c2, h2, hsp, hs2.trans (by decide)⟩⟩

/-- C27 fails on the code: `case 0x0a` has no `break`, so after `asl_accumulator` the step
also runs `rol_accumulator`. With `A = 0x81` and Carry clear the step leaves
`register_a == 0x05` with Carry clear, not `0x02` with Carry set; `asl_accumulator` alone
gives `0x02` with Carry set. -/
theorem C27_asl_accumulator_runs_on :
    (step.run (cpu_with 0x24 0x81 0 0 [(0x0600, 0x0A)])).raised = none ∧
    (step.run (cpu_with 0x24 0x81 0 0 [(0x0600, 0x0A)])).cpu.register_a = 0x05 ∧
    (step.run (cpu_with 0x24 0x81 0 0 [(0x0600, 0x0A)])).cpu.status &&& CARRY = 0 ∧
    (asl_accumulator.run (cpu_with 0x24 0x81 0 0 [])).cpu.register_a = 0x02 ∧
    (asl_accumulator.run (cpu_with 0x24 0x81 0 0 [])).cpu.status &&& CARRY ≠ 0 := by
  decide

/-- C28 fails on the code: `rol` and `ror` call `update_negative_flags`, which leaves Zero
alone. ROL `$10` (`0x26`) on the byte `0x80` with Carry clear writes 0 and leaves Zero
clear; ROR `$10` (`0x66`) on the byte 2 with Zero set writes 1 and leaves Zero set. ASL
`$10` (`0x06`) on `0x80` writes 0 and sets Zero, as claimed. -/
theorem C28_rol_ror_zero_stale :
    ((step.run (cpu_with 0x24 0 0 0 [(0x0600, 0x26), (0x0601, 0x10), (0x0010, 0x80)])).raised
        = none ∧
      (step.run (cpu_with 0x24 0 0 0 [(0x0600, 0x26), (0x0601, 0x10), (0x0010, 0x80)])
        ).cpu.memory 0x10 = 0 ∧
      (step.run (cpu_with 0x24 0 0 0 [(0x0600, 0x26), (0x0601, 0x10), (0x0010, 0x80)])
        ).cpu.status &&& ZERO = 0) ∧
    ((step.run (cpu_with 0x26 0 0 0 [(0x0600, 0x66), (0x0601, 0x10), (0x0010, 2)])).raised
        = none ∧
      (step.run (cpu_with 0x26 0 0 0 [(0x0600, 0x66), (0x0601, 0x10), (0x0010, 2)])
        ).cpu.memory 0x10 = 1 ∧
      (step.run (cpu_with 0x26 0 0 0 [(0x0600, 0x66), (0x0601, 0x10), (0x0010, 2)])
        ).cpu.status &&& ZERO ≠ 0) ∧
    ((step.run (cpu_with 0x24 0 0 0 [(0x0600, 0x06), (0x0601, 0x10), (0x0010, 0x80)])
        ).cpu.memory 0x10 = 0 ∧
      (step.run (cpu_with 0x24 0 0 0 [(0x0600, 0x06), (0x0601, 0x10), (0x0010, 0x80)])
        ).cpu.status &&& ZERO ≠ 0) := by
  decide

/-- C29: let `op` be an entry of the opcode table other than BRK, JMP, JSR, RTS, RTI and
the eight branches, and let its code be the byte at `P = program_counter`. If the engine
step returns, it did not execute `return` and it leaves
`program_counter == (P + op.len) mod 2^16`. -/
theorem C29_plain_step_advances (c c1 : NesCpu) (op : OpCode) (b : Bool)
    (htable : op ∈ CPU_OPS_CODES) (hnot : op.code ∉ CONTROL_TRANSFER_CODES)
    (hop : c.memory c.program_counter = op.code)
    (hstep : step.run c = Result.ok b c1) :
    c1.program_counter = (c.program_counter + op.len) % 65536 ∧ b = false := by
  have hmap : OPCODES_MAP (c.memory c.program_counter) = some op := by
    rw [hop]
    exact opcodes_map_of_mem op htable
  have h := step_plain c c1 op b hmap (by rw [hop]; exact hnot) hstep
  exact ⟨h.2, h.1⟩

set_option maxRecDepth 100000 in
/-- C29 at `LDA $0010` (`0xAD`, three bytes) placed at `0x0600`: the step returns and
leaves `program_counter == 0x0603`. -/
theorem C29_plain_step_advances_witness :
    (step.run (cpu_with 0x24 0 0 0 [(0x0600, 0xAD), (0x0601, 0x10), (0x0602, 0x00)])).raised
      = none ∧
    (step.run (cpu_with 0x24 0 0 0 [(0x0600, 0xAD), (0x0601, 0x10), (0x0602, 0x00)])
      ).cpu.program_counter = 0x0603 :=
  ⟨by decide,
    (C29_plain_step_advances
      (cpu_with 0x24 0 0 0 [(0x0600, 0xAD), (0x0601, 0x10), (0x0602, 0x00)])
      (step.run (cpu_with 0x24 0 0 0 [(0x0600, 0xAD), (0x0601, 0x10), (0x0602, 0x00)])).cpu
      (createOpCode 0xad "LDA" 3 4 AddressingMode.Absolute) false
      (by decide) (by decide) (by decide) rfl).1⟩

/-- C30 fails on the code: the step on INY (`0xC8`) aborts with the resolver's
`std::runtime_error`, yet `iny()` has run before: with `register_y = 0xFF` and status
`0x24` the aborted step leaves `register_y == 0` and status `0x26` (Zero set). -/
theorem C30_iny_not_atomic :
    (step.run (cpu_with 0x24 0 0 0xFF [(0x0600, 0xC8)])).raised
      = some (Fault.runtime_error "modo no soportado, dirección nula") ∧
    (cpu_with 0x24 0 0 0xFF [(0x0600, 0xC8)]).register_y = 0xFF ∧
    (step.run (cpu_with 0x24 0 0 0xFF [(0x0600, 0xC8)])).cpu.register_y = 0 ∧
    (cpu_with 0x24 0 0 0xFF [(0x0600, 0xC8)]).status = 0x24 ∧
    (step.run (cpu_with 0x24 0 0 0xFF [(0x0600, 0xC8)])).cpu.status = 0x26 :=
  ⟨rfl, rfl, rfl, rfl, rfl⟩

/-- C31: for every accumulator byte `A`, operand byte `m` and status byte with carry-in `cin`
(1 if Carry is set, else 0), `add_to_register_a(m)` returns with Overflow set if and only if
the signed sum `i8 A + i8 m + cin`, `A` and `m` read as two's-complement 8-bit integers,
is below -128 or above 127. -/
theorem C31_adc_overflow_signed (c : NesCpu) (m cin : Nat)
    (hA : c.register_a < 256) (hm : m < 256) (hs : c.status < 256)
    (hcin : cin = if c.status &&& CARRY ≠ 0 then 1 else 0) :
    ∃ c', (add_to_register_a m).run c = Result.ok () c' ∧
      (c'.status &&& OVERFLOW ≠ 0 ↔
        (i8 c.register_a + i8 m + (cin : Int) < -128 ∨
          127 < i8 c.register_a + i8 m + (cin : Int))) := by
  obtain ⟨a1, a2, b1, b2, c1, c2, d1, d2, -⟩ := status_bits_after_adc c.status hs
  have hcin1 : cin ≤ 1 := by rw [hcin]; split <;> omega
  have hsum : (c.register_a + m + cin) % 65536 = c.register_a + m + cin := by omega
  rw [run_add_to_register_a, ← hcin, hsum]
  clear hcin
  refine ⟨_, rfl, Iff.trans ?_ (overflow_test_signed c.register_a m cin hA hm hcin1)⟩
  by_cases hc : c.register_a + m + cin > 0xFF <;>
    by_cases hv : (m ^^^ (c.register_a + m + cin) % 256)
      &&& ((c.register_a + m + cin) % 256 ^^^ c.register_a) &&& 0x80 ≠ 0 <;>
    simp [hc, hv, *]

/-- C31 at `A = 0x50`, `m = 0x50`, Carry clear: the signed sum is 160, above 127, and
Overflow is set; at `A = 0x50`, `m = 0x10` the signed sum is 96 and Overflow is clear. -/
theorem C31_adc_overflow_signed_witness :
    (∃ c', (add_to_register_a 0x50).run (cpu_with 0x24 0x50 0 0 []) = Result.ok () c' ∧
      c'.status &&& OVERFLOW ≠ 0) ∧
    (∃ c', (add_to_register_a 0x10).run (cpu_with 0x24 0x50 0 0 []) = Result.ok () c' ∧
      c'.status &&& OVERFLOW = 0) := by
  obtain ⟨c1, h1, hv1⟩ :=
    C31_adc_overflow_signed (cpu_with 0x24 0x50 0 0 []) 0x50 0
      (by decide) (by decide) (by decide) (by decide)
  obtain ⟨c2, h2, hv2⟩ :=
    C31_adc_overflow_signed (cpu_with 0x24 0x50 0 0 []) 0x10 0
      (by decide) (by decide) (by decide) (by decide)
  refine ⟨⟨c1, h1, hv1.mpr (by decide)⟩, ⟨c2, h2, ?_⟩⟩
  by_contra hne
  exact absurd (hv2.mp hne) (by decide)
